import Mathlib

/-!
# protoc-gen-gogorpcx: the `rpcx` generator plugin

A shallow embedding of `rpcx/rpcx.go`.  Go strings are byte sequences, so a
string is a list of bytes here; the host generator
(`github.com/gogo/protobuf/protoc-gen-gogo/generator`) is an external
collaborator, represented by the state the plugin can change through it: the
fragments printed with `P`, the paths passed to `AddImport`, and the names
passed to `RecordTypeUse`, each in call order.
-/

namespace Rpcx

/-! ## Go strings -/

/-- A Go `byte`. -/
abbrev Byte := Fin 256

/-- A Go `string`: an immutable sequence of bytes. -/
abbrev GoString := List Byte

/-- Conversion of a number to a byte, keeping the low eight bits. -/
def byte (n : Nat) : Byte := ⟨n % 256, Nat.mod_lt _ (by decide)⟩

/-- UTF-8 encoding of a rune, as done by the Go conversion `string(r)`:
surrogates and values past U+10FFFF encode as U+FFFD. -/
def encodeRune (r : Nat) : GoString :=
  if r < 0x80 then [byte r]
  else if r < 0x800 then [byte (0xC0 + r / 64), byte (0x80 + r % 64)]
  else if 0xD800 ≤ r ∧ r ≤ 0xDFFF then [byte 0xEF, byte 0xBF, byte 0xBD]
  else if r < 0x10000 then
    [byte (0xE0 + r / 4096), byte (0x80 + r / 64 % 64), byte (0x80 + r % 64)]
  else if r < 0x110000 then
    [byte (0xF0 + r / 262144), byte (0x80 + r / 4096 % 64), byte (0x80 + r / 64 % 64),
      byte (0x80 + r % 64)]
  else [byte 0xEF, byte 0xBF, byte 0xBD]

/-- The bytes of a string literal of the source (Go source text is UTF-8). -/
def lit (s : String) : GoString := s.toList.flatMap fun c => encodeRune c.toNat

/-- Go `unicode.ToUpper` on the runes below U+0100, the only ones a byte converts to:
`a`..`z`, U+00E0..U+00F6 and U+00F8..U+00FE move down by 32, U+00B5 maps to U+039C,
U+00FF maps to U+0178, every other rune of that range is its own upper case. -/
def unicodeToUpper (r : Nat) : Nat :=
  if 0x61 ≤ r ∧ r ≤ 0x7A then r - 32
  else if r = 0xB5 then 0x39C
  else if 0xE0 ≤ r ∧ r ≤ 0xF6 then r - 32
  else if 0xF8 ≤ r ∧ r ≤ 0xFE then r - 32
  else if r = 0xFF then 0x178
  else r

/-- Go `strings.ToUpper(string(b))` for a byte `b`: the conversion `string(b)` yields the
UTF-8 encoding of the rune whose value is `b`; `ToUpper` maps an all-ASCII string byte by
byte and any other string rune by rune through `unicode.ToUpper`. -/
def toUpperOfByte (b : Byte) : GoString :=
  if b.val < 0x80 then
    [if 0x61 ≤ b.val ∧ b.val ≤ 0x7A then byte (b.val - 32) else b]
  else encodeRune (unicodeToUpper b.val)

/-- Source `upperFirstLatter`: the three branches on `len(s)`. -/
def upperFirstLatter (s : GoString) : GoString :=
  match s with
  | [] => []
  | [b] => toUpperOfByte b
  | b :: rest => toUpperOfByte b ++ rest

/-! ## Descriptors -/

/-- A `MethodDescriptorProto`, through its getters. -/
structure MethodDescriptorProto where
  GetName : GoString
  GetInputType : GoString
  GetOutputType : GoString
  deriving DecidableEq

/-- A `ServiceDescriptorProto`: its name and its methods in declaration order. -/
structure ServiceDescriptorProto where
  GetName : GoString
  Method : List MethodDescriptorProto
  deriving DecidableEq

/-- A `generator.FileDescriptor`: the file name and the services in declaration order. -/
structure FileDescriptor where
  GetName : GoString
  Service : List ServiceDescriptorProto
  deriving DecidableEq

/-! ## The host generator -/

/-- An object of the host's symbol table, known here by the name `TypeName` prints for it. -/
structure Object where
  printed : GoString
  deriving DecidableEq

/-- The host generator as seen by the plugin: the symbol table, the output buffer as the
sequence of printed fragments, the paths given to `AddImport` and the names given to
`RecordTypeUse`. -/
structure Generator where
  typeNameToObject : GoString → Option Object
  out : List GoString
  imports : List GoString
  usedTypes : List GoString

/-- Result of a generation step: it completes with a value and a generator state, or the
host's `Fail` stops it on a type name that has no object, leaving the state reached. -/
inductive Outcome (α : Type) where
  | ok (val : α) (g : Generator)
  | fail (typeName : GoString) (g : Generator)

/-- Sequencing: a failure stops the remaining steps. -/
def Outcome.bind {α β : Type} (o : Outcome α) (k : α → Generator → Outcome β) : Outcome β :=
  match o with
  | .ok a g => k a g
  | .fail e g => .fail e g

/-- The generator state an outcome ends in. -/
def Outcome.state {α : Type} : Outcome α → Generator
  | .ok _ g => g
  | .fail _ g => g

/-- Whether the outcome is a failure. -/
def Outcome.failed {α : Type} : Outcome α → Bool
  | .ok _ _ => false
  | .fail _ _ => true

/-- Host `P`: one more fragment at the end of the output (`P()` prints the empty fragment). -/
def Generator.P (g : Generator) (line : GoString) : Generator :=
  { g with out := g.out ++ [line] }

/-- Host `AddImport`: the path is registered. -/
def Generator.AddImport (g : Generator) (path : GoString) : Generator :=
  { g with imports := g.imports ++ [path] }

/-- Host `RecordTypeUse`: the name is recorded as used. -/
def Generator.RecordTypeUse (g : Generator) (name : GoString) : Generator :=
  { g with usedTypes := g.usedTypes ++ [name] }

/-- Host `ObjectNamed`: the object of the symbol table, or `Fail`. -/
def Generator.ObjectNamed (g : Generator) (name : GoString) : Outcome Object :=
  match g.typeNameToObject name with
  | some o => .ok o g
  | none => .fail name g

/-- Host `TypeName`: the printable name of an object. -/
def Generator.TypeName (_g : Generator) (o : Object) : GoString := o.printed

/-! ## The plugin -/

def rpcxServerPkgPath : GoString := lit "github.com/smallnest/rpcx/server"
def rpcxClientPkgPath : GoString := lit "github.com/smallnest/rpcx/client"
def rpcxProtocolPkgPath : GoString := lit "github.com/smallnest/rpcx/protocol"

/-- Source `objectNamed`: record the use, then look the object up. -/
def objectNamed (g : Generator) (name : GoString) : Outcome Object :=
  (g.RecordTypeUse name).ObjectNamed name

/-- Source `typeName`: the printable name of the object named `str`. -/
def typeName (g : Generator) (str : GoString) : Outcome GoString :=
  (objectNamed g str).bind fun o g1 => .ok (g1.TypeName o) g1

/-- The text `generateServerCode` formats: arguments `methodName, serviceName, methodName, inType, outType, outType`. -/
def serverStubText (methodName serviceName inType outType : GoString) : GoString :=
    lit "// " ++ methodName ++ lit " is server rpc method as defined\n\t\tfunc (s *" ++
    serviceName ++ lit "Impl) " ++ methodName ++ lit "(ctx context.Context, args *" ++ inType ++
    lit ", reply *" ++ outType ++
    lit ") (err error)\x7b\n\t\t\t// TODO: add business logics\n\n\t\t\t// TODO: setting return values\n\t\t\t*reply = " ++
    outType ++ lit "\x7b\x7d\n\n\t\t\treturn nil\n\t\t\x7d\n\t"

/-- Source `generateServerCode`: the server stub of one method. -/
def generateServerCode (g : Generator) (service : ServiceDescriptorProto)
    (method : MethodDescriptorProto) : Outcome Unit :=
  let methodName := upperFirstLatter method.GetName
  let serviceName := upperFirstLatter service.GetName
  (typeName g method.GetInputType).bind fun inType g1 =>
  (typeName g1 method.GetOutputType).bind fun outType g2 =>
  .ok () (g2.P (serverStubText methodName serviceName inType outType))

/-- The text `generateClientCode` formats: arguments `methodName, serviceName, methodName, inType, outType, outType, method.GetName()`. -/
def clientStubText (methodName serviceName inType outType rawName : GoString) : GoString :=
    lit "// " ++ methodName ++ lit " is client rpc method as defined\n\t\tfunc (c *" ++
    serviceName ++ lit "Client) " ++ methodName ++ lit "(ctx context.Context, args *" ++
    inType ++ lit ")(reply *" ++ outType ++ lit ", err error)\x7b\n\t\t\treply = &" ++ outType ++
    lit "\x7b\x7d\n\t\t\terr = c.xclient.Call(ctx,\"" ++ rawName ++
    lit "\",args, reply)\n\t\t\treturn reply, err\n\t\t\x7d\n\t"

/-- Source `generateClientCode`: the client-wrapper stub of one method. -/
def generateClientCode (g : Generator) (service : ServiceDescriptorProto)
    (method : MethodDescriptorProto) : Outcome Unit :=
  let methodName := upperFirstLatter method.GetName
  let serviceName := upperFirstLatter service.GetName
  (typeName g method.GetInputType).bind fun inType g1 =>
  (typeName g1 method.GetOutputType).bind fun outType g2 =>
  .ok () (g2.P (clientStubText methodName serviceName inType outType method.GetName))

/-- The text `generateOneClientCode` formats: arguments `methodName, serviceName, methodName, inType, outType, outType, method.GetName()`. -/
def oneClientStubText (methodName serviceName inType outType rawName : GoString) : GoString :=
    lit "// " ++ methodName ++ lit " is client rpc method as defined\n\t\tfunc (c *" ++
    serviceName ++ lit "OneClient) " ++ methodName ++ lit "(ctx context.Context, args *" ++
    inType ++ lit ")(reply *" ++ outType ++ lit ", err error)\x7b\n\t\t\treply = &" ++ outType ++
    lit "\x7b\x7d\n\t\t\terr = c.oneclient.Call(ctx,c.serviceName,\"" ++ rawName ++
    lit "\",args, reply)\n\t\t\treturn reply, err\n\t\t\x7d\n\t"

/-- Source `generateOneClientCode`: the single-target stub of one method. -/
def generateOneClientCode (g : Generator) (service : ServiceDescriptorProto)
    (method : MethodDescriptorProto) : Outcome Unit :=
  let methodName := upperFirstLatter method.GetName
  let serviceName := upperFirstLatter service.GetName
  (typeName g method.GetInputType).bind fun inType g1 =>
  (typeName g1 method.GetOutputType).bind fun outType g2 =>
  .ok () (g2.P (oneClientStubText methodName serviceName inType outType method.GetName))

/-- The loop `for _, method := range service.Method { body(service, method) }`. -/
def forEachMethod (body : Generator → ServiceDescriptorProto → MethodDescriptorProto → Outcome Unit)
    (service : ServiceDescriptorProto) :
    Generator → List MethodDescriptorProto → Outcome Unit
  | g, [] => .ok () g
  | g, method :: rest =>
    (body g service method).bind fun _ g1 => forEachMethod body service g1 rest

/-- The text printed after the `server skeleton` banner of `generateService`. -/
def serverSkeletonText (serviceName : GoString) : GoString :=
  lit "type " ++ serviceName ++ lit "Impl struct \x7b\x7d\n\n\t\t// ServeFor" ++ serviceName ++
    lit " starts a server only registers one service.\n\t\t// You can register more services and only start one server.\n\t\t// It blocks until the application exits.\n\t\tfunc ServeFor" ++
    serviceName ++
    lit "(addr string) error\x7b\n\t\t\ts := server.NewServer()\n\t\t\ts.RegisterName(\"" ++
    serviceName ++ lit "\", new(" ++ serviceName ++
    lit "Impl), \"\")\n\t\t\treturn s.Serve(\"tcp\", addr)\n\t\t\x7d\n\t"

/-- The text printed after the `client stub` banner of `generateService`. -/
def clientWrapperText (serviceName : GoString) : GoString :=
  lit "// " ++ serviceName ++ lit " is a client wrapped XClient.\n\t\ttype " ++ serviceName ++
    lit "Client struct\x7b\n\t\t\txclient client.XClient\n\t\t\x7d\n\n\t\t// New" ++
    serviceName ++ lit "Client wraps a XClient as " ++ serviceName ++
    lit "Client.\n\t\t// You can pass a shared XClient object created by NewXClientFor" ++
    serviceName ++ lit ".\n\t\tfunc New" ++ serviceName ++
    lit "Client(xclient client.XClient) *" ++ serviceName ++ lit "Client \x7b\n\t\t\treturn &" ++
    serviceName ++ lit "Client\x7bxclient: xclient\x7d\n\t\t\x7d\n\n\t\t// NewXClientFor" ++
    serviceName ++
    lit " creates a XClient.\n\t\t// You can configure this client with more options such as etcd registry, serialize type, select algorithm and fail mode.\n\t\tfunc NewXClientFor" ++
    serviceName ++
    lit "(addr string) client.XClient \x7b\n\t\t\td := client.NewPeer2PeerDiscovery(\"tcp@\"+addr, \"\")\n\t\t\topt := client.DefaultOption\n\t\t\topt.SerializeType = protocol.ProtoBuffer\n\n\t\t\txclient := client.NewXClient(\"" ++
    serviceName ++
    lit "\", client.Failtry, client.RoundRobin, d, opt)\n\t\t\treturn xclient\n\t\t\x7d\n\n\t\t// ======================================================\n\t"

/-- The text printed after the `oneclient stub` banner of `generateService`. -/
def oneClientWrapperText (serviceName : GoString) : GoString :=
  lit "// " ++ serviceName ++ lit "OneClient is a client wrapped oneClient.\n\t\ttype " ++
    serviceName ++
    lit "OneClient struct\x7b\n\t\t\tserviceName string\n\t\t\toneclient client.OneClient\n\t\t\x7d\n\n\t\t// New" ++
    serviceName ++ lit "OneClient wraps a OneClient as " ++ serviceName ++
    lit "OneClient.\n\t\t// You can pass a shared OneClient object created by NewOneClientFor" ++
    serviceName ++ lit ".\n\t\tfunc New" ++ serviceName ++
    lit "OneClient(oneclient client.OneClient) *" ++ serviceName ++
    lit "OneClient \x7b\n\t\t\treturn &" ++ serviceName ++
    lit "OneClient\x7b\n\t\t\t\tserviceName: \"" ++ serviceName ++
    lit "\",\n\t\t\t\toneclient: oneclient,\n\t\t\t\x7d\n\t\t\x7d\n\n\t\t// ======================================================\n\t"

/-- Source `generateService`: all the code of one service (`index` is not used by the
source either). -/
def generateService (g : Generator) (file : FileDescriptor) (service : ServiceDescriptorProto)
    (_index : Nat) : Outcome Unit :=
  let originServiceName := service.GetName
  let serviceName := upperFirstLatter originServiceName
  let g := g.P (lit "// This following code was generated by rpcx")
  let g := g.P (lit "// Gernerated from " ++ file.GetName)
  -- server
  let g := g.P []
  let g := g.P (lit "//================== server skeleton===================")
  let g := g.P (serverSkeletonText serviceName)
  let g := g.P []
  (forEachMethod generateServerCode service g service.Method).bind fun _ g =>
  -- xclient
  let g := g.P []
  let g := g.P (lit "//================== client stub===================")
  let g := g.P (clientWrapperText serviceName)
  (forEachMethod generateClientCode service g service.Method).bind fun _ g =>
  -- one client
  let g := g.P []
  let g := g.P (lit "//================== oneclient stub===================")
  let g := g.P (oneClientWrapperText serviceName)
  forEachMethod generateOneClientCode service g service.Method

/-- The loop `for i, service := range file.FileDescriptorProto.Service`, from index `i`. -/
def forEachService (file : FileDescriptor) :
    Generator → List ServiceDescriptorProto → Nat → Outcome Unit
  | g, [], _ => .ok () g
  | g, service :: rest, i =>
    (generateService g file service i).bind fun _ g1 => forEachService file g1 rest (i + 1)

/-- Source `Generate`: code for the services of the given file. -/
def Generate (g : Generator) (file : FileDescriptor) : Outcome Unit :=
  if file.Service.length = 0 then .ok () g
  else
    let g := g.AddImport rpcxServerPkgPath
    let g := g.AddImport rpcxClientPkgPath
    let g := g.AddImport rpcxProtocolPkgPath
    let g := g.AddImport (lit "context")
    -- generate all services
    forEachService file g file.Service 0

/-! ## Specification-side definitions -/

/-- The printable name a type reference resolves to in a symbol table (empty when the
reference has no object). -/
def resolved (tbl : GoString → Option Object) (ref : GoString) : GoString :=
  match tbl ref with
  | some o => o.printed
  | none => []

/-- Both type references of the method have an object in the symbol table. -/
def resolves (tbl : GoString → Option Object) (m : MethodDescriptorProto) : Bool :=
  (tbl m.GetInputType).isSome && (tbl m.GetOutputType).isSome

/-- The two type references of a method, in lookup order. -/
def typeRefs (m : MethodDescriptorProto) : List GoString := [m.GetInputType, m.GetOutputType]

/-- Server stub of a method, with exported names and resolved type names. -/
def serverStub (tbl : GoString → Option Object) (service : ServiceDescriptorProto)
    (m : MethodDescriptorProto) : GoString :=
  serverStubText (upperFirstLatter m.GetName) (upperFirstLatter service.GetName)
    (resolved tbl m.GetInputType) (resolved tbl m.GetOutputType)

/-- Client-wrapper stub of a method. -/
def clientStub (tbl : GoString → Option Object) (service : ServiceDescriptorProto)
    (m : MethodDescriptorProto) : GoString :=
  clientStubText (upperFirstLatter m.GetName) (upperFirstLatter service.GetName)
    (resolved tbl m.GetInputType) (resolved tbl m.GetOutputType) m.GetName

/-- Single-target stub of a method. -/
def oneClientStub (tbl : GoString → Option Object) (service : ServiceDescriptorProto)
    (m : MethodDescriptorProto) : GoString :=
  oneClientStubText (upperFirstLatter m.GetName) (upperFirstLatter service.GetName)
    (resolved tbl m.GetInputType) (resolved tbl m.GetOutputType) m.GetName

/-- Header and server-skeleton boilerplate of a service: six fragments. -/
def serverBoilerplate (file : FileDescriptor) (service : ServiceDescriptorProto) :
    List GoString :=
  [lit "// This following code was generated by rpcx",
   lit "// Gernerated from " ++ file.GetName,
   [],
   lit "//================== server skeleton===================",
   serverSkeletonText (upperFirstLatter service.GetName),
   []]

/-- Client-wrapper boilerplate of a service: three fragments. -/
def clientBoilerplate (service : ServiceDescriptorProto) : List GoString :=
  [[],
   lit "//================== client stub===================",
   clientWrapperText (upperFirstLatter service.GetName)]

/-- Single-target boilerplate of a service: three fragments. -/
def oneClientBoilerplate (service : ServiceDescriptorProto) : List GoString :=
  [[],
   lit "//================== oneclient stub===================",
   oneClientWrapperText (upperFirstLatter service.GetName)]

/-- The block of one service, as the specification orders it: server boilerplate, one
server stub per method, client boilerplate, one client stub per method, single-target
boilerplate, one single-target stub per method. -/
def serviceBlock (tbl : GoString → Option Object) (file : FileDescriptor)
    (service : ServiceDescriptorProto) : List GoString :=
  serverBoilerplate file service ++ service.Method.map (serverStub tbl service) ++
  (clientBoilerplate service ++ service.Method.map (clientStub tbl service)) ++
  (oneClientBoilerplate service ++ service.Method.map (oneClientStub tbl service))

/-- The type references a service's generation looks up, in order: every method's pair,
once per stub family. -/
def serviceRefs (service : ServiceDescriptorProto) : List GoString :=
  service.Method.flatMap typeRefs ++ service.Method.flatMap typeRefs ++
  service.Method.flatMap typeRefs

/-- Some fragment of the sequence contains the text. -/
def Declares (frags : List GoString) (text : GoString) : Prop :=
  ∃ f ∈ frags, text <:+: f

/-- Executable test that the first string starts the second. -/
def isPrefixB : GoString → GoString → Bool
  | [], _ => true
  | _ :: _, [] => false
  | a :: as, b :: bs => if a = b then isPrefixB as bs else false

/-- Executable test that the first string occurs in the second. -/
def infixB (x : GoString) : GoString → Bool
  | [] => x.isEmpty
  | b :: l => if isPrefixB x (b :: l) then true else infixB x l

/-- Executable form of `Declares`. -/
def declaresB (frags : List GoString) (x : GoString) : Bool :=
  frags.any (infixB x)

/-- A generator state with more fragments printed and more type names recorded. -/
def Generator.extend (g : Generator) (frags used : List GoString) : Generator :=
  { g with out := g.out ++ frags, usedTypes := g.usedTypes ++ used }

/-- The common shape of the three stub generators: two lookups, then one print. -/
def stubStep (text : GoString → GoString → GoString) (g : Generator)
    (m : MethodDescriptorProto) : Outcome Unit :=
  (typeName g m.GetInputType).bind fun inType g1 =>
  (typeName g1 m.GetOutputType).bind fun outType g2 =>
  .ok () (g2.P (text inType outType))

/-- The fragments a run of `Generate` added to the output. -/
def emitted (g : Generator) (file : FileDescriptor) : List GoString :=
  (Generate g file).state.out.drop g.out.length

/-! ## Sample inputs -/

/-- A symbol table with the two message types of the greeter example. -/
def helloTable : GoString → Option Object := fun ref =>
  if ref = lit ".hello.HelloRequest" then some ⟨lit "HelloRequest"⟩
  else if ref = lit ".hello.HelloReply" then some ⟨lit "HelloReply"⟩
  else none

/-- A generator over `helloTable` that has printed nothing yet. -/
def helloGen : Generator := ⟨helloTable, [], [], []⟩

/-- A generator over `helloTable` with earlier output, imports and recorded types. -/
def busyGen : Generator :=
  ⟨helloTable, [lit "package hello"], [lit "fmt"], [lit ".hello.HelloRequest"]⟩

/-- The method `SayHello(HelloRequest) returns (HelloReply)`. -/
def sayHello : MethodDescriptorProto :=
  ⟨lit "SayHello", lit ".hello.HelloRequest", lit ".hello.HelloReply"⟩

/-- The service `Greeter` with the single method `SayHello`. -/
def greeter : ServiceDescriptorProto := ⟨lit "Greeter", [sayHello]⟩

/-- The file `hello.proto` declaring `Greeter`. -/
def greeterFile : FileDescriptor := ⟨lit "hello.proto", [greeter]⟩

/-- A file without services. -/
def emptyFile : FileDescriptor := ⟨lit "empty.proto", []⟩

/-- A method whose input type has no object in `helloTable`. -/
def sayLost : MethodDescriptorProto :=
  ⟨lit "SayLost", lit ".hello.Missing", lit ".hello.HelloReply"⟩

/-- The file `hello.proto` where `Greeter` declares `SayHello`, then `SayLost`. -/
def brokenFile : FileDescriptor := ⟨lit "hello.proto", [⟨lit "Greeter", [sayHello, sayLost]⟩]⟩

/-- The service `greeter`, spelled in lower case, without methods. -/
def lowerGreeter : ServiceDescriptorProto := ⟨lit "greeter", []⟩

/-- The file `lower.proto` declaring `greeter`. -/
def lowerFile : FileDescriptor := ⟨lit "lower.proto", [lowerGreeter]⟩

/-- The method `sayHello`, spelled with a lower-case first letter. -/
def lowerSayHello : MethodDescriptorProto :=
  ⟨lit "sayHello", lit ".hello.HelloRequest", lit ".hello.HelloReply"⟩

/-- The provenance comment `generateService` prints for a file. -/
def provenance (file : FileDescriptor) : GoString :=
  lit "// Gernerated from " ++ file.GetName

/-- The service `Farewell`, without methods. -/
def farewell : ServiceDescriptorProto := ⟨lit "Farewell", []⟩

/-- The file `two.proto` declaring `Greeter`, then `Farewell`. -/
def twoFile : FileDescriptor := ⟨lit "two.proto", [greeter, farewell]⟩

/-- A method without a name. -/
def unnamedMethod : MethodDescriptorProto :=
  ⟨[], lit ".hello.HelloRequest", lit ".hello.HelloReply"⟩

/-- A service without a name, declaring the method without a name. -/
def unnamedService : ServiceDescriptorProto := ⟨[], [unnamedMethod]⟩

/-- The service declared as `greeter` with the method declared as `sayHello`. -/
def lowerService : ServiceDescriptorProto := ⟨lit "greeter", [lowerSayHello]⟩

/-- The same generator with other output, imports and recorded types in front of its own. -/
def Generator.shift (g : Generator) (o i u : List GoString) : Generator :=
  { g with out := o ++ g.out, imports := i ++ g.imports, usedTypes := u ++ g.usedTypes }

/-- An outcome with its final state shifted. -/
def Outcome.shift {α : Type} (r : Outcome α) (o i u : List GoString) : Outcome α :=
  match r with
  | .ok a g => .ok a (g.shift o i u)
  | .fail e g => .fail e (g.shift o i u)

/-- The generator over the same symbol table that has printed, imported and recorded
nothing. -/
def Generator.fresh (g : Generator) : Generator := ⟨g.typeNameToObject, [], [], []⟩

/-- The reference whose lookup fails for a method that does not resolve: the input type,
or the output type when the input type has an object. -/
def absentRef (tbl : GoString → Option Object) (m : MethodDescriptorProto) : GoString :=
  if (tbl m.GetInputType).isSome then m.GetOutputType else m.GetInputType

/-- The references looked up for a method that does not resolve, the failing one last. -/
def refsLookedUp (tbl : GoString → Option Object) (m : MethodDescriptorProto) :
    List GoString :=
  if (tbl m.GetInputType).isSome then [m.GetInputType, m.GetOutputType]
  else [m.GetInputType]

/-- The output handed to the host for the file: the buffer of a run that completes;
nothing when the host's `Fail` ended the run. -/
def Outcome.delivered {α : Type} : Outcome α → Option (List GoString)
  | .ok _ g => some g.out
  | .fail _ _ => none

/-- The service `Greeter` declaring `SayHello`, then `SayLost`. -/
def brokenGreeter : ServiceDescriptorProto := ⟨lit "Greeter", [sayHello, sayLost]⟩

/-- The file `late.proto` declaring `Farewell`, then the service whose second method does
not resolve, then `Greeter`. -/
def lateFile : FileDescriptor := ⟨lit "late.proto", [farewell, brokenGreeter, greeter]⟩

/-- A service without a name whose only method has an input type without object. -/
def unnamedLost : ServiceDescriptorProto := ⟨[], [sayLost]⟩

/-! ## Basic facts about the host operations -/

@[simp] theorem extend_typeNameToObject (g : Generator) (a b : List GoString) :
    (g.extend a b).typeNameToObject = g.typeNameToObject := rfl

@[simp] theorem extend_out (g : Generator) (a b : List GoString) :
    (g.extend a b).out = g.out ++ a := rfl

@[simp] theorem extend_imports (g : Generator) (a b : List GoString) :
    (g.extend a b).imports = g.imports := rfl

@[simp] theorem extend_usedTypes (g : Generator) (a b : List GoString) :
    (g.extend a b).usedTypes = g.usedTypes ++ b := rfl

@[simp] theorem extend_extend (g : Generator) (a b c d : List GoString) :
    (g.extend a b).extend c d = g.extend (a ++ c) (b ++ d) := by
  simp [Generator.extend, List.append_assoc]

theorem extend_nil (g : Generator) : g.extend [] [] = g := by
  simp [Generator.extend]

theorem P_eq_extend (g : Generator) (x : GoString) : g.P x = g.extend [x] [] := by
  simp [Generator.P, Generator.extend]

theorem RecordTypeUse_eq_extend (g : Generator) (x : GoString) :
    g.RecordTypeUse x = g.extend [] [x] := by
  simp [Generator.RecordTypeUse, Generator.extend]

@[simp] theorem AddImport_extend (g : Generator) (p : GoString) (a b : List GoString) :
    (g.AddImport p).extend a b = (g.extend a b).AddImport p := rfl

theorem typeName_of_some {g : Generator} {ref : GoString} {o : Object}
    (h : g.typeNameToObject ref = some o) :
    typeName g ref = .ok o.printed (g.extend [] [ref]) := by
  simp [typeName, objectNamed, Generator.ObjectNamed, RecordTypeUse_eq_extend, h,
    Outcome.bind, Generator.TypeName]

theorem typeName_of_none {g : Generator} {ref : GoString}
    (h : g.typeNameToObject ref = none) :
    typeName g ref = .fail ref (g.extend [] [ref]) := by
  simp [typeName, objectNamed, Generator.ObjectNamed, RecordTypeUse_eq_extend, h,
    Outcome.bind]

theorem resolved_of_some {tbl : GoString → Option Object} {ref : GoString} {o : Object}
    (h : tbl ref = some o) : resolved tbl ref = o.printed := by
  simp [resolved, h]

theorem stubStep_ok (text : GoString → GoString → GoString) (g : Generator)
    (m : MethodDescriptorProto) (h : resolves g.typeNameToObject m = true) :
    stubStep text g m =
      .ok () (g.extend [text (resolved g.typeNameToObject m.GetInputType)
        (resolved g.typeNameToObject m.GetOutputType)] (typeRefs m)) := by
  simp only [resolves, Bool.and_eq_true, Option.isSome_iff_exists] at h
  obtain ⟨⟨a, ha⟩, ⟨b, hb⟩⟩ := h
  have hb2 : (g.extend [] [m.GetInputType]).typeNameToObject m.GetOutputType = some b := hb
  simp [stubStep, typeName_of_some ha, typeName_of_some hb2, Outcome.bind, P_eq_extend,
    resolved_of_some ha, resolved_of_some hb, typeRefs]

theorem stubStep_fail (text : GoString → GoString → GoString) (g : Generator)
    (m : MethodDescriptorProto) (h : resolves g.typeNameToObject m = false) :
    ∃ ref used, stubStep text g m = .fail ref (g.extend [] used) ∧
      g.typeNameToObject ref = none ∧ ref ∈ typeRefs m := by
  cases ha : g.typeNameToObject m.GetInputType with
  | none =>
    exact ⟨m.GetInputType, [m.GetInputType], by
      simp [stubStep, typeName_of_none ha, Outcome.bind], ha, by simp [typeRefs]⟩
  | some a =>
    have hb : g.typeNameToObject m.GetOutputType = none := by
      cases hb : g.typeNameToObject m.GetOutputType with
      | none => rfl
      | some b => simp [resolves, ha, hb] at h
    have hb2 : (g.extend [] [m.GetInputType]).typeNameToObject m.GetOutputType = none := hb
    exact ⟨m.GetOutputType, [m.GetInputType, m.GetOutputType], by
      simp [stubStep, typeName_of_some ha, typeName_of_none hb2, Outcome.bind], hb,
      by simp [typeRefs]⟩

theorem generateServerCode_eq (g : Generator) (s : ServiceDescriptorProto)
    (m : MethodDescriptorProto) :
    generateServerCode g s m =
      stubStep (serverStubText (upperFirstLatter m.GetName) (upperFirstLatter s.GetName)) g m :=
  rfl

theorem generateClientCode_eq (g : Generator) (s : ServiceDescriptorProto)
    (m : MethodDescriptorProto) :
    generateClientCode g s m =
      stubStep (fun i o => clientStubText (upperFirstLatter m.GetName)
        (upperFirstLatter s.GetName) i o m.GetName) g m :=
  rfl

theorem generateOneClientCode_eq (g : Generator) (s : ServiceDescriptorProto)
    (m : MethodDescriptorProto) :
    generateOneClientCode g s m =
      stubStep (fun i o => oneClientStubText (upperFirstLatter m.GetName)
        (upperFirstLatter s.GetName) i o m.GetName) g m :=
  rfl

/-! ## The method loops -/

theorem forEachMethod_ok
    (body : Generator → ServiceDescriptorProto → MethodDescriptorProto → Outcome Unit)
    (text : MethodDescriptorProto → GoString → GoString → GoString)
    (s : ServiceDescriptorProto)
    (hbody : ∀ g m, body g s m = stubStep (text m) g m) :
    ∀ (ms : List MethodDescriptorProto) (g : Generator),
      (∀ m ∈ ms, resolves g.typeNameToObject m = true) →
      forEachMethod body s g ms =
        .ok () (g.extend
          (ms.map fun m => text m (resolved g.typeNameToObject m.GetInputType)
            (resolved g.typeNameToObject m.GetOutputType))
          (ms.flatMap typeRefs)) := by
  intro ms
  induction ms with
  | nil => intro g _; simp [forEachMethod, extend_nil]
  | cons m rest ih =>
    intro g h
    have hm : resolves g.typeNameToObject m = true := h m (List.mem_cons_self _ _)
    have hrest : ∀ x ∈ rest, resolves g.typeNameToObject x = true :=
      fun x hx => h x (List.mem_cons_of_mem _ hx)
    rw [forEachMethod, hbody, stubStep_ok _ _ _ hm]
    simp only [Outcome.bind]
    rw [ih _ (by simpa using hrest)]
    simp

theorem forEachMethod_fail
    (body : Generator → ServiceDescriptorProto → MethodDescriptorProto → Outcome Unit)
    (text : MethodDescriptorProto → GoString → GoString → GoString)
    (s : ServiceDescriptorProto)
    (hbody : ∀ g m, body g s m = stubStep (text m) g m) :
    ∀ (ms : List MethodDescriptorProto) (g : Generator),
      (∃ m ∈ ms, resolves g.typeNameToObject m = false) →
      ∃ ref frags used, forEachMethod body s g ms = .fail ref (g.extend frags used) ∧
        g.typeNameToObject ref = none ∧ ∃ m ∈ ms, ref ∈ typeRefs m := by
  intro ms
  induction ms with
  | nil => intro g h; simp at h
  | cons m rest ih =>
    intro g h
    cases hm : resolves g.typeNameToObject m with
    | false =>
      obtain ⟨ref, used, he, hn, hr⟩ := stubStep_fail (text m) g m hm
      refine ⟨ref, [], used, ?_, hn, m, List.mem_cons_self _ _, hr⟩
      rw [forEachMethod, hbody, he]
      rfl
    | true =>
      have hrest : ∃ x ∈ rest, resolves g.typeNameToObject x = false := by
        obtain ⟨x, hx, hxr⟩ := h
        rcases List.mem_cons.mp hx with rfl | hx
        · rw [hm] at hxr; cases hxr
        · exact ⟨x, hx, hxr⟩
      obtain ⟨ref, frags, used, he, hn, x, hx, hr⟩ :=
        ih (g.extend [text m (resolved g.typeNameToObject m.GetInputType)
          (resolved g.typeNameToObject m.GetOutputType)] (typeRefs m)) (by simpa using hrest)
      refine ⟨ref, [text m (resolved g.typeNameToObject m.GetInputType)
          (resolved g.typeNameToObject m.GetOutputType)] ++ frags, typeRefs m ++ used, ?_,
        by simpa using hn, x, List.mem_cons_of_mem _ hx, hr⟩
      rw [forEachMethod, hbody, stubStep_ok _ _ _ hm]
      simp only [Outcome.bind]
      rw [he, extend_extend]

/-! ## One service -/

theorem generateService_ok (g : Generator) (file : FileDescriptor)
    (s : ServiceDescriptorProto) (i : Nat)
    (h : ∀ m ∈ s.Method, resolves g.typeNameToObject m = true) :
    generateService g file s i =
      .ok () (g.extend (serviceBlock g.typeNameToObject file s) (serviceRefs s)) := by
  unfold generateService
  simp only [P_eq_extend, extend_extend]
  rw [forEachMethod_ok generateServerCode _ s (generateServerCode_eq · s) _ _ (by simpa using h)]
  simp only [Outcome.bind, extend_extend]
  rw [forEachMethod_ok generateClientCode _ s (generateClientCode_eq · s) _ _ (by simpa using h)]
  simp only [Outcome.bind, extend_extend]
  rw [forEachMethod_ok generateOneClientCode _ s (generateOneClientCode_eq · s) _ _
    (by simpa using h)]
  simp [serviceBlock, serviceRefs, serverBoilerplate, clientBoilerplate, oneClientBoilerplate]
  rfl

theorem generateService_fail (g : Generator) (file : FileDescriptor)
    (s : ServiceDescriptorProto) (i : Nat)
    (h : ∃ m ∈ s.Method, resolves g.typeNameToObject m = false) :
    ∃ ref frags used,
      generateService g file s i =
        .fail ref (g.extend (serverBoilerplate file s ++ frags) used) ∧
      g.typeNameToObject ref = none ∧ ∃ m ∈ s.Method, ref ∈ typeRefs m := by
  unfold generateService
  simp only [P_eq_extend, extend_extend]
  obtain ⟨ref, frags, used, he, hn, hm⟩ :=
    forEachMethod_fail generateServerCode _ s (generateServerCode_eq · s) s.Method
      (g.extend (serverBoilerplate file s) []) (by simpa using h)
  refine ⟨ref, frags, used, ?_, by simpa using hn, hm⟩
  have he2 : forEachMethod generateServerCode s
      (g.extend
        ([lit "// This following code was generated by rpcx"] ++
                  [lit "// Gernerated from " ++ file.GetName] ++
                [[]] ++
              [lit "//================== server skeleton==================="] ++
            [serverSkeletonText (upperFirstLatter s.GetName)] ++
          [[]])
        ([] ++ [] ++ [] ++ [] ++ [] ++ []))
      s.Method = .fail ref (g.extend (serverBoilerplate file s ++ frags) used) := by
    rw [extend_extend] at he
    exact he
  rw [he2]
  rfl

/-! ## The service loop -/

theorem forEachService_ok (file : FileDescriptor) :
    ∀ (ss : List ServiceDescriptorProto) (g : Generator) (i : Nat),
      (∀ s ∈ ss, ∀ m ∈ s.Method, resolves g.typeNameToObject m = true) →
      forEachService file g ss i =
        .ok () (g.extend (ss.flatMap (serviceBlock g.typeNameToObject file))
          (ss.flatMap serviceRefs)) := by
  intro ss
  induction ss with
  | nil => intro g i _; simp [forEachService, extend_nil]
  | cons s rest ih =>
    intro g i h
    rw [forEachService, generateService_ok g file s i (h s (List.mem_cons_self _ _))]
    simp only [Outcome.bind]
    rw [ih _ _ (fun x hx => by simpa using h x (List.mem_cons_of_mem _ hx))]
    simp

theorem forEachService_fail (file : FileDescriptor) :
    ∀ (ss : List ServiceDescriptorProto) (g : Generator) (i : Nat),
      (∃ s ∈ ss, ∃ m ∈ s.Method, resolves g.typeNameToObject m = false) →
      ∃ ref frags used, forEachService file g ss i = .fail ref (g.extend frags used) ∧
        g.typeNameToObject ref = none ∧ ∃ s ∈ ss, ∃ m ∈ s.Method, ref ∈ typeRefs m := by
  intro ss
  induction ss with
  | nil => intro g i h; simp at h
  | cons s rest ih =>
    intro g i h
    by_cases hs : ∀ m ∈ s.Method, resolves g.typeNameToObject m = true
    · have hrest : ∃ x ∈ rest, ∃ m ∈ x.Method, resolves g.typeNameToObject m = false := by
        obtain ⟨x, hx, m, hm, hr⟩ := h
        rcases List.mem_cons.mp hx with rfl | hx
        · rw [hs m hm] at hr; cases hr
        · exact ⟨x, hx, m, hm, hr⟩
      obtain ⟨ref, frags, used, he, hn, x, hx, hm⟩ :=
        ih (g.extend (serviceBlock g.typeNameToObject file s) (serviceRefs s)) (i + 1)
          (by simpa using hrest)
      refine ⟨ref, serviceBlock g.typeNameToObject file s ++ frags, serviceRefs s ++ used, ?_,
        by simpa using hn, x, List.mem_cons_of_mem _ hx, hm⟩
      rw [forEachService, generateService_ok g file s i hs]
      simp only [Outcome.bind]
      rw [he, extend_extend]
    · have hs2 : ∃ m ∈ s.Method, resolves g.typeNameToObject m = false := by
        by_contra hc
        apply hs
        intro m hm
        cases hr : resolves g.typeNameToObject m with
        | true => rfl
        | false => exact absurd ⟨m, hm, hr⟩ hc
      obtain ⟨ref, frags, used, he, hn, hm⟩ := generateService_fail g file s i hs2
      refine ⟨ref, serverBoilerplate file s ++ frags, used, ?_, hn, s,
        List.mem_cons_self _ _, hm⟩
      rw [forEachService, he]
      rfl

/-- A failing run has printed the first service's header and server-skeleton
boilerplate before anything else. -/
theorem forEachService_fail_head (file : FileDescriptor) (s : ServiceDescriptorProto)
    (rest : List ServiceDescriptorProto) (g : Generator) (i : Nat)
    (h : ∃ x ∈ s :: rest, ∃ m ∈ x.Method, resolves g.typeNameToObject m = false) :
    ∃ ref frags used,
      forEachService file g (s :: rest) i =
        .fail ref (g.extend (serverBoilerplate file s ++ frags) used) ∧
      g.typeNameToObject ref = none ∧ ∃ x ∈ s :: rest, ∃ m ∈ x.Method, ref ∈ typeRefs m := by
  by_cases hs : ∀ m ∈ s.Method, resolves g.typeNameToObject m = true
  · have hrest : ∃ x ∈ rest, ∃ m ∈ x.Method, resolves g.typeNameToObject m = false := by
      obtain ⟨x, hx, m, hm, hr⟩ := h
      rcases List.mem_cons.mp hx with rfl | hx
      · rw [hs m hm] at hr; cases hr
      · exact ⟨x, hx, m, hm, hr⟩
    obtain ⟨ref, frags, used, he, hn, x, hx, hm⟩ :=
      forEachService_fail file rest
        (g.extend (serviceBlock g.typeNameToObject file s) (serviceRefs s)) (i + 1)
        (by simpa using hrest)
    refine ⟨ref, s.Method.map (serverStub g.typeNameToObject s) ++
        (clientBoilerplate s ++ s.Method.map (clientStub g.typeNameToObject s)) ++
        (oneClientBoilerplate s ++ s.Method.map (oneClientStub g.typeNameToObject s)) ++ frags,
      serviceRefs s ++ used, ?_, by simpa using hn, x, List.mem_cons_of_mem _ hx, hm⟩
    rw [forEachService, generateService_ok g file s i hs]
    simp only [Outcome.bind]
    rw [he, extend_extend]
    simp [serviceBlock, List.append_assoc]
  · have hs2 : ∃ m ∈ s.Method, resolves g.typeNameToObject m = false := by
      by_contra hc
      apply hs
      intro m hm
      cases hr : resolves g.typeNameToObject m with
      | true => rfl
      | false => exact absurd ⟨m, hm, hr⟩ hc
    obtain ⟨ref, frags, used, he, hn, hm⟩ := generateService_fail g file s i hs2
    refine ⟨ref, frags, used, ?_, hn, s, List.mem_cons_self _ _, hm⟩
    rw [forEachService, he]
    rfl

/-- The generator state after the four `AddImport` calls of `Generate`. -/
theorem Generate_of_services (g : Generator) (file : FileDescriptor)
    (h : file.Service ≠ []) :
    Generate g file =
      forEachService file
        ((((g.AddImport rpcxServerPkgPath).AddImport rpcxClientPkgPath).AddImport
          rpcxProtocolPkgPath).AddImport (lit "context")) file.Service 0 := by
  have hl : ¬ file.Service.length = 0 := by
    intro h0
    exact h (List.length_eq_zero.mp h0)
  simp [Generate, hl]

theorem resolves_all_or_some (tbl : GoString → Option Object)
    (ss : List ServiceDescriptorProto) :
    (∀ s ∈ ss, ∀ m ∈ s.Method, resolves tbl m = true) ∨
      (∃ s ∈ ss, ∃ m ∈ s.Method, resolves tbl m = false) := by
  by_cases h : ∀ s ∈ ss, ∀ m ∈ s.Method, resolves tbl m = true
  · exact Or.inl h
  · right
    by_contra hc
    apply h
    intro s hs m hm
    cases hr : resolves tbl m with
    | true => rfl
    | false => exact absurd ⟨s, hs, m, hm, hr⟩ hc

theorem Generate_ok (g : Generator) (file : FileDescriptor)
    (h : ∀ s ∈ file.Service, ∀ m ∈ s.Method, resolves g.typeNameToObject m = true) :
    (Generate g file).failed = false ∧
      (Generate g file).state.out =
        g.out ++ file.Service.flatMap (serviceBlock g.typeNameToObject file) ∧
      (Generate g file).state.usedTypes = g.usedTypes ++ file.Service.flatMap serviceRefs := by
  by_cases hs : file.Service = []
  · simp [Generate, hs, Outcome.failed, Outcome.state]
  · rw [Generate_of_services g file hs, forEachService_ok file file.Service _ 0 (by simpa using h)]
    simp [Outcome.failed, Outcome.state, Generator.AddImport]

theorem emitted_ok (g : Generator) (file : FileDescriptor)
    (h : ∀ s ∈ file.Service, ∀ m ∈ s.Method, resolves g.typeNameToObject m = true) :
    emitted g file = file.Service.flatMap (serviceBlock g.typeNameToObject file) := by
  rw [emitted, (Generate_ok g file h).2.1, List.drop_left]

/-! ## Where a failing run stops -/

theorem stubStep_fail_exact (text : GoString → GoString → GoString) (g : Generator)
    (m : MethodDescriptorProto) (h : resolves g.typeNameToObject m = false) :
    stubStep text g m =
        .fail (absentRef g.typeNameToObject m)
          (g.extend [] (refsLookedUp g.typeNameToObject m)) ∧
      g.typeNameToObject (absentRef g.typeNameToObject m) = none := by
  cases ha : g.typeNameToObject m.GetInputType with
  | none =>
    simp [stubStep, typeName_of_none ha, Outcome.bind, absentRef, refsLookedUp, ha]
  | some a =>
    have hb : g.typeNameToObject m.GetOutputType = none := by
      cases hb : g.typeNameToObject m.GetOutputType with
      | none => rfl
      | some b => simp [resolves, ha, hb] at h
    have hb2 : (g.extend [] [m.GetInputType]).typeNameToObject m.GetOutputType = none := hb
    simp [stubStep, typeName_of_some ha, typeName_of_none hb2, Outcome.bind, absentRef,
      refsLookedUp, ha, hb]

theorem forEachMethod_fail_exact
    (body : Generator → ServiceDescriptorProto → MethodDescriptorProto → Outcome Unit)
    (text : MethodDescriptorProto → GoString → GoString → GoString)
    (s : ServiceDescriptorProto)
    (hbody : ∀ g m, body g s m = stubStep (text m) g m)
    (m : MethodDescriptorProto) (mpost : List MethodDescriptorProto) :
    ∀ (mpre : List MethodDescriptorProto) (g : Generator),
      (∀ y ∈ mpre, resolves g.typeNameToObject y = true) →
      resolves g.typeNameToObject m = false →
      forEachMethod body s g (mpre ++ m :: mpost) =
        .fail (absentRef g.typeNameToObject m)
          (g.extend
            (mpre.map fun y => text y (resolved g.typeNameToObject y.GetInputType)
              (resolved g.typeNameToObject y.GetOutputType))
            (mpre.flatMap typeRefs ++ refsLookedUp g.typeNameToObject m)) := by
  intro mpre
  induction mpre with
  | nil =>
    intro g _ hm
    rw [List.nil_append, forEachMethod, hbody, (stubStep_fail_exact (text m) g m hm).1]
    simp [Outcome.bind]
  | cons y rest ih =>
    intro g hpre hm
    have hy : resolves g.typeNameToObject y = true := hpre y (List.mem_cons_self _ _)
    have hrest : ∀ x ∈ rest, resolves g.typeNameToObject x = true :=
      fun x hx => hpre x (List.mem_cons_of_mem _ hx)
    rw [List.cons_append, forEachMethod, hbody, stubStep_ok _ _ _ hy]
    simp only [Outcome.bind]
    rw [ih _ (by simpa using hrest) (by simpa using hm)]
    simp

theorem generateService_fail_exact (g : Generator) (file : FileDescriptor)
    (s : ServiceDescriptorProto) (i : Nat)
    (mpre : List MethodDescriptorProto) (m : MethodDescriptorProto)
    (mpost : List MethodDescriptorProto) (hs : s.Method = mpre ++ m :: mpost)
    (hpre : ∀ y ∈ mpre, resolves g.typeNameToObject y = true)
    (hm : resolves g.typeNameToObject m = false) :
    generateService g file s i =
      .fail (absentRef g.typeNameToObject m)
        (g.extend (serverBoilerplate file s ++ mpre.map (serverStub g.typeNameToObject s))
          (mpre.flatMap typeRefs ++ refsLookedUp g.typeNameToObject m)) := by
  have he := forEachMethod_fail_exact generateServerCode _ s (generateServerCode_eq · s)
    m mpost mpre (g.extend (serverBoilerplate file s) []) (by simpa using hpre)
    (by simpa using hm)
  unfold generateService
  simp only [P_eq_extend, extend_extend]
  rw [hs]
  have he2 : forEachMethod generateServerCode s
      (g.extend
        ([lit "// This following code was generated by rpcx"] ++
                  [lit "// Gernerated from " ++ file.GetName] ++
                [[]] ++
              [lit "//================== server skeleton==================="] ++
            [serverSkeletonText (upperFirstLatter s.GetName)] ++
          [[]])
        ([] ++ [] ++ [] ++ [] ++ [] ++ []))
      (mpre ++ m :: mpost) =
      .fail (absentRef g.typeNameToObject m)
        (g.extend (serverBoilerplate file s ++ mpre.map (serverStub g.typeNameToObject s))
          (mpre.flatMap typeRefs ++ refsLookedUp g.typeNameToObject m)) := by
    rw [extend_extend] at he
    exact he
  rw [he2]
  rfl

theorem forEachService_fail_exact (file : FileDescriptor) (s : ServiceDescriptorProto)
    (post : List ServiceDescriptorProto)
    (mpre : List MethodDescriptorProto) (m : MethodDescriptorProto)
    (mpost : List MethodDescriptorProto) (hs : s.Method = mpre ++ m :: mpost) :
    ∀ (pre : List ServiceDescriptorProto) (g : Generator) (i : Nat),
      (∀ x ∈ pre, ∀ y ∈ x.Method, resolves g.typeNameToObject y = true) →
      (∀ y ∈ mpre, resolves g.typeNameToObject y = true) →
      resolves g.typeNameToObject m = false →
      forEachService file g (pre ++ s :: post) i =
        .fail (absentRef g.typeNameToObject m)
          (g.extend
            (pre.flatMap (serviceBlock g.typeNameToObject file) ++
              (serverBoilerplate file s ++ mpre.map (serverStub g.typeNameToObject s)))
            (pre.flatMap serviceRefs ++
              (mpre.flatMap typeRefs ++ refsLookedUp g.typeNameToObject m))) := by
  intro pre
  induction pre with
  | nil =>
    intro g i _ hpre hm
    rw [List.nil_append, forEachService,
      generateService_fail_exact g file s i mpre m mpost hs hpre hm]
    simp [Outcome.bind]
  | cons x rest ih =>
    intro g i hx hpre hm
    rw [List.cons_append, forEachService,
      generateService_ok g file x i (hx x (List.mem_cons_self _ _))]
    simp only [Outcome.bind]
    rw [ih _ _ (fun z hz => by simpa using hx z (List.mem_cons_of_mem _ hz))
      (by simpa using hpre) (by simpa using hm)]
    simp

theorem exists_first_false {α : Type} (p : α → Bool) :
    ∀ l : List α, (∃ x ∈ l, p x = false) →
      ∃ pre x post, l = pre ++ x :: post ∧ (∀ y ∈ pre, p y = true) ∧ p x = false
  | [], h => by simp at h
  | a :: l, h => by
    cases ha : p a with
    | false => exact ⟨[], a, l, rfl, by simp, ha⟩
    | true =>
      have hl : ∃ x ∈ l, p x = false := by
        obtain ⟨x, hx, hpx⟩ := h
        rcases List.mem_cons.mp hx with rfl | hx
        · rw [ha] at hpx; cases hpx
        · exact ⟨x, hx, hpx⟩
      obtain ⟨pre, x, post, hl2, hpre, hx⟩ := exists_first_false p l hl
      refine ⟨a :: pre, x, post, by rw [hl2]; rfl, ?_, hx⟩
      intro y hy
      rcases List.mem_cons.mp hy with rfl | hy
      · exact ha
      · exact hpre y hy

/-- A file with an unresolved reference splits at the first service that has one, and
that service's methods split at the first method that has one. -/
theorem exists_first_unresolved (tbl : GoString → Option Object)
    (ss : List ServiceDescriptorProto)
    (h : ∃ s ∈ ss, ∃ m ∈ s.Method, resolves tbl m = false) :
    ∃ pre s post mpre m mpost,
      ss = pre ++ s :: post ∧ s.Method = mpre ++ m :: mpost ∧
      (∀ x ∈ pre, ∀ y ∈ x.Method, resolves tbl y = true) ∧
      (∀ y ∈ mpre, resolves tbl y = true) ∧ resolves tbl m = false := by
  have h1 : ∃ s ∈ ss, (fun x : ServiceDescriptorProto => x.Method.all (resolves tbl)) s =
      false := by
    obtain ⟨s, hs, m, hm, hr⟩ := h
    refine ⟨s, hs, ?_⟩
    simp only [List.all_eq_false]
    exact ⟨m, hm, by simp [hr]⟩
  obtain ⟨pre, s, post, hss, hpre, hs⟩ := exists_first_false _ ss h1
  have h2 : ∃ m ∈ s.Method, resolves tbl m = false := by
    simp only [List.all_eq_false] at hs
    obtain ⟨m, hm, hr⟩ := hs
    exact ⟨m, hm, by simpa using hr⟩
  obtain ⟨mpre, m, mpost, hms, hmpre, hm⟩ := exists_first_false _ s.Method h2
  refine ⟨pre, s, post, mpre, m, mpost, hss, hms, ?_, hmpre, hm⟩
  intro x hx y hy
  have := hpre x hx
  simp only [List.all_eq_true] at this
  exact this y hy

/-! ## What the texts contain -/

set_option maxRecDepth 100000

/-- The server skeleton declares the implementation type. -/
theorem serverSkeletonText_type (serviceName : GoString) :
    lit "type " ++ serviceName ++ lit "Impl struct \x7b\x7d" <:+:
      serverSkeletonText serviceName := by
  have h1 : lit "Impl struct \x7b\x7d\n\n\t\t// ServeFor" =
      lit "Impl struct \x7b\x7d" ++ lit "\n\n\t\t// ServeFor" := by decide
  refine ⟨[],
    lit "\n\n\t\t// ServeFor" ++ serviceName ++ lit " starts a server only registers one service.\n\t\t// You can register more services and only start one server.\n\t\t// It blocks until the application exits.\n\t\tfunc ServeFor" ++ serviceName ++ lit "(addr string) error\x7b\n\t\t\ts := server.NewServer()\n\t\t\ts.RegisterName(\"" ++ serviceName ++ lit "\", new(" ++ serviceName ++ lit "Impl), \"\")\n\t\t\treturn s.Serve(\"tcp\", addr)\n\t\t\x7d\n\t", ?_⟩
  simp only [serverSkeletonText, h1, List.append_assoc, List.nil_append, List.append_nil]

/-- The server skeleton declares the serve function. -/
theorem serverSkeletonText_serve (serviceName : GoString) :
    lit "func ServeFor" ++ serviceName ++ lit "(addr string) error" <:+:
      serverSkeletonText serviceName := by
  have h1 : lit " starts a server only registers one service.\n\t\t// You can register more services and only start one server.\n\t\t// It blocks until the application exits.\n\t\tfunc ServeFor" =
      lit " starts a server only registers one service.\n\t\t// You can register more services and only start one server.\n\t\t// It blocks until the application exits.\n\t\t" ++ lit "func ServeFor" := by decide
  have h2 : lit "(addr string) error\x7b\n\t\t\ts := server.NewServer()\n\t\t\ts.RegisterName(\"" =
      lit "(addr string) error" ++ lit "\x7b\n\t\t\ts := server.NewServer()\n\t\t\ts.RegisterName(\"" := by decide
  refine ⟨lit "type " ++ serviceName ++ lit "Impl struct \x7b\x7d\n\n\t\t// ServeFor" ++ serviceName ++ lit " starts a server only registers one service.\n\t\t// You can register more services and only start one server.\n\t\t// It blocks until the application exits.\n\t\t",
    lit "\x7b\n\t\t\ts := server.NewServer()\n\t\t\ts.RegisterName(\"" ++ serviceName ++ lit "\", new(" ++ serviceName ++ lit "Impl), \"\")\n\t\t\treturn s.Serve(\"tcp\", addr)\n\t\t\x7d\n\t", ?_⟩
  simp only [serverSkeletonText, h1, h2, List.append_assoc, List.nil_append, List.append_nil]

/-- The server stub declares the method on the implementation type. -/
theorem serverStubText_method (methodName serviceName inType outType : GoString) :
    lit "func (s *" ++ serviceName ++ lit "Impl) " ++ methodName ++ lit "(ctx context.Context, args *" ++ inType ++ lit ", reply *" ++ outType ++ lit ") (err error)" <:+:
      serverStubText methodName serviceName inType outType := by
  have h1 : lit " is server rpc method as defined\n\t\tfunc (s *" =
      lit " is server rpc method as defined\n\t\t" ++ lit "func (s *" := by decide
  have h2 : lit ") (err error)\x7b\n\t\t\t// TODO: add business logics\n\n\t\t\t// TODO: setting return values\n\t\t\t*reply = " =
      lit ") (err error)" ++ lit "\x7b\n\t\t\t// TODO: add business logics\n\n\t\t\t// TODO: setting return values\n\t\t\t*reply = " := by decide
  refine ⟨lit "// " ++ methodName ++ lit " is server rpc method as defined\n\t\t",
    lit "\x7b\n\t\t\t// TODO: add business logics\n\n\t\t\t// TODO: setting return values\n\t\t\t*reply = " ++ outType ++ lit "\x7b\x7d\n\n\t\t\treturn nil\n\t\t\x7d\n\t", ?_⟩
  simp only [serverStubText, h1, h2, List.append_assoc, List.nil_append, List.append_nil]

/-- The client boilerplate declares the wrapper type. -/
theorem clientWrapperText_type (serviceName : GoString) :
    lit "type " ++ serviceName ++ lit "Client struct" <:+:
      clientWrapperText serviceName := by
  have h1 : lit " is a client wrapped XClient.\n\t\ttype " =
      lit " is a client wrapped XClient.\n\t\t" ++ lit "type " := by decide
  have h2 : lit "Client struct\x7b\n\t\t\txclient client.XClient\n\t\t\x7d\n\n\t\t// New" =
      lit "Client struct" ++ lit "\x7b\n\t\t\txclient client.XClient\n\t\t\x7d\n\n\t\t// New" := by decide
  refine ⟨lit "// " ++ serviceName ++ lit " is a client wrapped XClient.\n\t\t",
    lit "\x7b\n\t\t\txclient client.XClient\n\t\t\x7d\n\n\t\t// New" ++ serviceName ++ lit "Client wraps a XClient as " ++ serviceName ++ lit "Client.\n\t\t// You can pass a shared XClient object created by NewXClientFor" ++ serviceName ++ lit ".\n\t\tfunc New" ++ serviceName ++ lit "Client(xclient client.XClient) *" ++ serviceName ++ lit "Client \x7b\n\t\t\treturn &" ++ serviceName ++ lit "Client\x7bxclient: xclient\x7d\n\t\t\x7d\n\n\t\t// NewXClientFor" ++ serviceName ++ lit " creates a XClient.\n\t\t// You can configure this client with more options such as etcd registry, serialize type, select algorithm and fail mode.\n\t\tfunc NewXClientFor" ++ serviceName ++ lit "(addr string) client.XClient \x7b\n\t\t\td := client.NewPeer2PeerDiscovery(\"tcp@\"+addr, \"\")\n\t\t\topt := client.DefaultOption\n\t\t\topt.SerializeType = protocol.ProtoBuffer\n\n\t\t\txclient := client.NewXClient(\"" ++ serviceName ++ lit "\", client.Failtry, client.RoundRobin, d, opt)\n\t\t\treturn xclient\n\t\t\x7d\n\n\t\t// ======================================================\n\t", ?_⟩
  simp only [clientWrapperText, h1, h2, List.append_assoc, List.nil_append, List.append_nil]

/-- The client boilerplate declares the constructor. -/
theorem clientWrapperText_new (serviceName : GoString) :
    lit "func New" ++ serviceName ++ lit "Client(xclient client.XClient) *" ++ serviceName ++ lit "Client" <:+:
      clientWrapperText serviceName := by
  have h1 : lit ".\n\t\tfunc New" =
      lit ".\n\t\t" ++ lit "func New" := by decide
  have h2 : lit "Client \x7b\n\t\t\treturn &" =
      lit "Client" ++ lit " \x7b\n\t\t\treturn &" := by decide
  refine ⟨lit "// " ++ serviceName ++ lit " is a client wrapped XClient.\n\t\ttype " ++ serviceName ++ lit "Client struct\x7b\n\t\t\txclient client.XClient\n\t\t\x7d\n\n\t\t// New" ++ serviceName ++ lit "Client wraps a XClient as " ++ serviceName ++ lit "Client.\n\t\t// You can pass a shared XClient object created by NewXClientFor" ++ serviceName ++ lit ".\n\t\t",
    lit " \x7b\n\t\t\treturn &" ++ serviceName ++ lit "Client\x7bxclient: xclient\x7d\n\t\t\x7d\n\n\t\t// NewXClientFor" ++ serviceName ++ lit " creates a XClient.\n\t\t// You can configure this client with more options such as etcd registry, serialize type, select algorithm and fail mode.\n\t\tfunc NewXClientFor" ++ serviceName ++ lit "(addr string) client.XClient \x7b\n\t\t\td := client.NewPeer2PeerDiscovery(\"tcp@\"+addr, \"\")\n\t\t\topt := client.DefaultOption\n\t\t\topt.SerializeType = protocol.ProtoBuffer\n\n\t\t\txclient := client.NewXClient(\"" ++ serviceName ++ lit "\", client.Failtry, client.RoundRobin, d, opt)\n\t\t\treturn xclient\n\t\t\x7d\n\n\t\t// ======================================================\n\t", ?_⟩
  simp only [clientWrapperText, h1, h2, List.append_assoc, List.nil_append, List.append_nil]

/-- The client boilerplate declares the XClient factory. -/
theorem clientWrapperText_factory (serviceName : GoString) :
    lit "func NewXClientFor" ++ serviceName ++ lit "(addr string) client.XClient" <:+:
      clientWrapperText serviceName := by
  have h1 : lit " creates a XClient.\n\t\t// You can configure this client with more options such as etcd registry, serialize type, select algorithm and fail mode.\n\t\tfunc NewXClientFor" =
      lit " creates a XClient.\n\t\t// You can configure this client with more options such as etcd registry, serialize type, select algorithm and fail mode.\n\t\t" ++ lit "func NewXClientFor" := by decide
  have h2 : lit "(addr string) client.XClient \x7b\n\t\t\td := client.NewPeer2PeerDiscovery(\"tcp@\"+addr, \"\")\n\t\t\topt := client.DefaultOption\n\t\t\topt.SerializeType = protocol.ProtoBuffer\n\n\t\t\txclient := client.NewXClient(\"" =
      lit "(addr string) client.XClient" ++ lit " \x7b\n\t\t\td := client.NewPeer2PeerDiscovery(\"tcp@\"+addr, \"\")\n\t\t\topt := client.DefaultOption\n\t\t\topt.SerializeType = protocol.ProtoBuffer\n\n\t\t\txclient := client.NewXClient(\"" := by decide
  refine ⟨lit "// " ++ serviceName ++ lit " is a client wrapped XClient.\n\t\ttype " ++ serviceName ++ lit "Client struct\x7b\n\t\t\txclient client.XClient\n\t\t\x7d\n\n\t\t// New" ++ serviceName ++ lit "Client wraps a XClient as " ++ serviceName ++ lit "Client.\n\t\t// You can pass a shared XClient object created by NewXClientFor" ++ serviceName ++ lit ".\n\t\tfunc New" ++ serviceName ++ lit "Client(xclient client.XClient) *" ++ serviceName ++ lit "Client \x7b\n\t\t\treturn &" ++ serviceName ++ lit "Client\x7bxclient: xclient\x7d\n\t\t\x7d\n\n\t\t// NewXClientFor" ++ serviceName ++ lit " creates a XClient.\n\t\t// You can configure this client with more options such as etcd registry, serialize type, select algorithm and fail mode.\n\t\t",
    lit " \x7b\n\t\t\td := client.NewPeer2PeerDiscovery(\"tcp@\"+addr, \"\")\n\t\t\topt := client.DefaultOption\n\t\t\topt.SerializeType = protocol.ProtoBuffer\n\n\t\t\txclient := client.NewXClient(\"" ++ serviceName ++ lit "\", client.Failtry, client.RoundRobin, d, opt)\n\t\t\treturn xclient\n\t\t\x7d\n\n\t\t// ======================================================\n\t", ?_⟩
  simp only [clientWrapperText, h1, h2, List.append_assoc, List.nil_append, List.append_nil]

/-- The client stub declares the method on the wrapper type. -/
theorem clientStubText_method (methodName serviceName inType outType rawName : GoString) :
    lit "func (c *" ++ serviceName ++ lit "Client) " ++ methodName ++ lit "(ctx context.Context, args *" ++ inType ++ lit ")(reply *" ++ outType ++ lit ", err error)" <:+:
      clientStubText methodName serviceName inType outType rawName := by
  have h1 : lit " is client rpc method as defined\n\t\tfunc (c *" =
      lit " is client rpc method as defined\n\t\t" ++ lit "func (c *" := by decide
  have h2 : lit ", err error)\x7b\n\t\t\treply = &" =
      lit ", err error)" ++ lit "\x7b\n\t\t\treply = &" := by decide
  refine ⟨lit "// " ++ methodName ++ lit " is client rpc method as defined\n\t\t",
    lit "\x7b\n\t\t\treply = &" ++ outType ++ lit "\x7b\x7d\n\t\t\terr = c.xclient.Call(ctx,\"" ++ rawName ++ lit "\",args, reply)\n\t\t\treturn reply, err\n\t\t\x7d\n\t", ?_⟩
  simp only [clientStubText, h1, h2, List.append_assoc, List.nil_append, List.append_nil]

/-- The client stub calls the XClient with the raw method name. -/
theorem clientStubText_call (methodName serviceName inType outType rawName : GoString) :
    lit "c.xclient.Call(ctx,\"" ++ rawName ++ lit "\",args, reply)" <:+:
      clientStubText methodName serviceName inType outType rawName := by
  have h1 : lit "\x7b\x7d\n\t\t\terr = c.xclient.Call(ctx,\"" =
      lit "\x7b\x7d\n\t\t\terr = " ++ lit "c.xclient.Call(ctx,\"" := by decide
  have h2 : lit "\",args, reply)\n\t\t\treturn reply, err\n\t\t\x7d\n\t" =
      lit "\",args, reply)" ++ lit "\n\t\t\treturn reply, err\n\t\t\x7d\n\t" := by decide
  refine ⟨lit "// " ++ methodName ++ lit " is client rpc method as defined\n\t\tfunc (c *" ++ serviceName ++ lit "Client) " ++ methodName ++ lit "(ctx context.Context, args *" ++ inType ++ lit ")(reply *" ++ outType ++ lit ", err error)\x7b\n\t\t\treply = &" ++ outType ++ lit "\x7b\x7d\n\t\t\terr = ",
    lit "\n\t\t\treturn reply, err\n\t\t\x7d\n\t", ?_⟩
  simp only [clientStubText, h1, h2, List.append_assoc, List.nil_append, List.append_nil]

/-- The single-target boilerplate declares the wrapper type. -/
theorem oneClientWrapperText_type (serviceName : GoString) :
    lit "type " ++ serviceName ++ lit "OneClient struct" <:+:
      oneClientWrapperText serviceName := by
  have h1 : lit "OneClient is a client wrapped oneClient.\n\t\ttype " =
      lit "OneClient is a client wrapped oneClient.\n\t\t" ++ lit "type " := by decide
  have h2 : lit "OneClient struct\x7b\n\t\t\tserviceName string\n\t\t\toneclient client.OneClient\n\t\t\x7d\n\n\t\t// New" =
      lit "OneClient struct" ++ lit "\x7b\n\t\t\tserviceName string\n\t\t\toneclient client.OneClient\n\t\t\x7d\n\n\t\t// New" := by decide
  refine ⟨lit "// " ++ serviceName ++ lit "OneClient is a client wrapped oneClient.\n\t\t",
    lit "\x7b\n\t\t\tserviceName string\n\t\t\toneclient client.OneClient\n\t\t\x7d\n\n\t\t// New" ++ serviceName ++ lit "OneClient wraps a OneClient as " ++ serviceName ++ lit "OneClient.\n\t\t// You can pass a shared OneClient object created by NewOneClientFor" ++ serviceName ++ lit ".\n\t\tfunc New" ++ serviceName ++ lit "OneClient(oneclient client.OneClient) *" ++ serviceName ++ lit "OneClient \x7b\n\t\t\treturn &" ++ serviceName ++ lit "OneClient\x7b\n\t\t\t\tserviceName: \"" ++ serviceName ++ lit "\",\n\t\t\t\toneclient: oneclient,\n\t\t\t\x7d\n\t\t\x7d\n\n\t\t// ======================================================\n\t", ?_⟩
  simp only [oneClientWrapperText, h1, h2, List.append_assoc, List.nil_append, List.append_nil]

/-- The single-target boilerplate declares the constructor. -/
theorem oneClientWrapperText_new (serviceName : GoString) :
    lit "func New" ++ serviceName ++ lit "OneClient(oneclient client.OneClient) *" ++ serviceName ++ lit "OneClient" <:+:
      oneClientWrapperText serviceName := by
  have h1 : lit ".\n\t\tfunc New" =
      lit ".\n\t\t" ++ lit "func New" := by decide
  have h2 : lit "OneClient \x7b\n\t\t\treturn &" =
      lit "OneClient" ++ lit " \x7b\n\t\t\treturn &" := by decide
  refine ⟨lit "// " ++ serviceName ++ lit "OneClient is a client wrapped oneClient.\n\t\ttype " ++ serviceName ++ lit "OneClient struct\x7b\n\t\t\tserviceName string\n\t\t\toneclient client.OneClient\n\t\t\x7d\n\n\t\t// New" ++ serviceName ++ lit "OneClient wraps a OneClient as " ++ serviceName ++ lit "OneClient.\n\t\t// You can pass a shared OneClient object created by NewOneClientFor" ++ serviceName ++ lit ".\n\t\t",
    lit " \x7b\n\t\t\treturn &" ++ serviceName ++ lit "OneClient\x7b\n\t\t\t\tserviceName: \"" ++ serviceName ++ lit "\",\n\t\t\t\toneclient: oneclient,\n\t\t\t\x7d\n\t\t\x7d\n\n\t\t// ======================================================\n\t", ?_⟩
  simp only [oneClientWrapperText, h1, h2, List.append_assoc, List.nil_append, List.append_nil]

/-- The single-target constructor stores the exported service name. -/
theorem oneClientWrapperText_serviceName (serviceName : GoString) :
    lit "return &" ++ serviceName ++ lit "OneClient\x7b\n\t\t\t\tserviceName: \"" ++ serviceName ++ lit "\",\n\t\t\t\toneclient: oneclient," <:+:
      oneClientWrapperText serviceName := by
  have h1 : lit "OneClient \x7b\n\t\t\treturn &" =
      lit "OneClient \x7b\n\t\t\t" ++ lit "return &" := by decide
  have h2 : lit "\",\n\t\t\t\toneclient: oneclient,\n\t\t\t\x7d\n\t\t\x7d\n\n\t\t// ======================================================\n\t" =
      lit "\",\n\t\t\t\toneclient: oneclient," ++ lit "\n\t\t\t\x7d\n\t\t\x7d\n\n\t\t// ======================================================\n\t" := by decide
  refine ⟨lit "// " ++ serviceName ++ lit "OneClient is a client wrapped oneClient.\n\t\ttype " ++ serviceName ++ lit "OneClient struct\x7b\n\t\t\tserviceName string\n\t\t\toneclient client.OneClient\n\t\t\x7d\n\n\t\t// New" ++ serviceName ++ lit "OneClient wraps a OneClient as " ++ serviceName ++ lit "OneClient.\n\t\t// You can pass a shared OneClient object created by NewOneClientFor" ++ serviceName ++ lit ".\n\t\tfunc New" ++ serviceName ++ lit "OneClient(oneclient client.OneClient) *" ++ serviceName ++ lit "OneClient \x7b\n\t\t\t",
    lit "\n\t\t\t\x7d\n\t\t\x7d\n\n\t\t// ======================================================\n\t", ?_⟩
  simp only [oneClientWrapperText, h1, h2, List.append_assoc, List.nil_append, List.append_nil]

/-- The server skeleton registers the exported service name. -/
theorem serverSkeletonText_register (serviceName : GoString) :
    lit "s.RegisterName(\"" ++ serviceName ++ lit "\", new(" <:+:
      serverSkeletonText serviceName := by
  have h1 : lit "(addr string) error\x7b\n\t\t\ts := server.NewServer()\n\t\t\ts.RegisterName(\"" =
      lit "(addr string) error\x7b\n\t\t\ts := server.NewServer()\n\t\t\t" ++ lit "s.RegisterName(\"" := by decide
  refine ⟨lit "type " ++ serviceName ++ lit "Impl struct \x7b\x7d\n\n\t\t// ServeFor" ++ serviceName ++ lit " starts a server only registers one service.\n\t\t// You can register more services and only start one server.\n\t\t// It blocks until the application exits.\n\t\tfunc ServeFor" ++ serviceName ++ lit "(addr string) error\x7b\n\t\t\ts := server.NewServer()\n\t\t\t",
    serviceName ++ lit "Impl), \"\")\n\t\t\treturn s.Serve(\"tcp\", addr)\n\t\t\x7d\n\t", ?_⟩
  simp only [serverSkeletonText, h1, List.append_assoc, List.nil_append, List.append_nil]

/-- The single-target stub declares the method on the wrapper type. -/
theorem oneClientStubText_method (methodName serviceName inType outType rawName : GoString) :
    lit "func (c *" ++ serviceName ++ lit "OneClient) " ++ methodName ++ lit "(ctx context.Context, args *" ++ inType ++ lit ")(reply *" ++ outType ++ lit ", err error)" <:+:
      oneClientStubText methodName serviceName inType outType rawName := by
  have h1 : lit " is client rpc method as defined\n\t\tfunc (c *" =
      lit " is client rpc method as defined\n\t\t" ++ lit "func (c *" := by decide
  have h2 : lit ", err error)\x7b\n\t\t\treply = &" =
      lit ", err error)" ++ lit "\x7b\n\t\t\treply = &" := by decide
  refine ⟨lit "// " ++ methodName ++ lit " is client rpc method as defined\n\t\t",
    lit "\x7b\n\t\t\treply = &" ++ outType ++ lit "\x7b\x7d\n\t\t\terr = c.oneclient.Call(ctx,c.serviceName,\"" ++ rawName ++ lit "\",args, reply)\n\t\t\treturn reply, err\n\t\t\x7d\n\t", ?_⟩
  simp only [oneClientStubText, h1, h2, List.append_assoc, List.nil_append, List.append_nil]

/-- The single-target stub calls the OneClient with the raw method name. -/
theorem oneClientStubText_call (methodName serviceName inType outType rawName : GoString) :
    lit "c.oneclient.Call(ctx,c.serviceName,\"" ++ rawName ++ lit "\",args, reply)" <:+:
      oneClientStubText methodName serviceName inType outType rawName := by
  have h1 : lit "\x7b\x7d\n\t\t\terr = c.oneclient.Call(ctx,c.serviceName,\"" =
      lit "\x7b\x7d\n\t\t\terr = " ++ lit "c.oneclient.Call(ctx,c.serviceName,\"" := by decide
  have h2 : lit "\",args, reply)\n\t\t\treturn reply, err\n\t\t\x7d\n\t" =
      lit "\",args, reply)" ++ lit "\n\t\t\treturn reply, err\n\t\t\x7d\n\t" := by decide
  refine ⟨lit "// " ++ methodName ++ lit " is client rpc method as defined\n\t\tfunc (c *" ++ serviceName ++ lit "OneClient) " ++ methodName ++ lit "(ctx context.Context, args *" ++ inType ++ lit ")(reply *" ++ outType ++ lit ", err error)\x7b\n\t\t\treply = &" ++ outType ++ lit "\x7b\x7d\n\t\t\terr = ",
    lit "\n\t\t\treturn reply, err\n\t\t\x7d\n\t", ?_⟩
  simp only [oneClientStubText, h1, h2, List.append_assoc, List.nil_append, List.append_nil]

/-- The server stub takes the input and output type names as argument and reply types. -/
theorem serverStubText_types (methodName serviceName inType outType : GoString) :
    lit "(ctx context.Context, args *" ++ inType ++ lit ", reply *" ++ outType ++ lit ") (err error)" <:+:
      serverStubText methodName serviceName inType outType := by
  have h1 : lit ") (err error)\x7b\n\t\t\t// TODO: add business logics\n\n\t\t\t// TODO: setting return values\n\t\t\t*reply = " =
      lit ") (err error)" ++ lit "\x7b\n\t\t\t// TODO: add business logics\n\n\t\t\t// TODO: setting return values\n\t\t\t*reply = " := by decide
  refine ⟨lit "// " ++ methodName ++ lit " is server rpc method as defined\n\t\tfunc (s *" ++ serviceName ++ lit "Impl) " ++ methodName,
    lit "\x7b\n\t\t\t// TODO: add business logics\n\n\t\t\t// TODO: setting return values\n\t\t\t*reply = " ++ outType ++ lit "\x7b\x7d\n\n\t\t\treturn nil\n\t\t\x7d\n\t", ?_⟩
  simp only [serverStubText, h1, List.append_assoc, List.nil_append, List.append_nil]

/-- The client stub takes the input type name as argument type and returns the output type name. -/
theorem clientStubText_types (methodName serviceName inType outType rawName : GoString) :
    lit "(ctx context.Context, args *" ++ inType ++ lit ")(reply *" ++ outType ++ lit ", err error)" <:+:
      clientStubText methodName serviceName inType outType rawName := by
  have h1 : lit ", err error)\x7b\n\t\t\treply = &" =
      lit ", err error)" ++ lit "\x7b\n\t\t\treply = &" := by decide
  refine ⟨lit "// " ++ methodName ++ lit " is client rpc method as defined\n\t\tfunc (c *" ++ serviceName ++ lit "Client) " ++ methodName,
    lit "\x7b\n\t\t\treply = &" ++ outType ++ lit "\x7b\x7d\n\t\t\terr = c.xclient.Call(ctx,\"" ++ rawName ++ lit "\",args, reply)\n\t\t\treturn reply, err\n\t\t\x7d\n\t", ?_⟩
  simp only [clientStubText, h1, List.append_assoc, List.nil_append, List.append_nil]

/-- The single-target stub takes the input type name as argument type and returns the output type name. -/
theorem oneClientStubText_types (methodName serviceName inType outType rawName : GoString) :
    lit "(ctx context.Context, args *" ++ inType ++ lit ")(reply *" ++ outType ++ lit ", err error)" <:+:
      oneClientStubText methodName serviceName inType outType rawName := by
  have h1 : lit ", err error)\x7b\n\t\t\treply = &" =
      lit ", err error)" ++ lit "\x7b\n\t\t\treply = &" := by decide
  refine ⟨lit "// " ++ methodName ++ lit " is client rpc method as defined\n\t\tfunc (c *" ++ serviceName ++ lit "OneClient) " ++ methodName,
    lit "\x7b\n\t\t\treply = &" ++ outType ++ lit "\x7b\x7d\n\t\t\terr = c.oneclient.Call(ctx,c.serviceName,\"" ++ rawName ++ lit "\",args, reply)\n\t\t\treturn reply, err\n\t\t\x7d\n\t", ?_⟩
  simp only [oneClientStubText, h1, List.append_assoc, List.nil_append, List.append_nil]

/-- The server skeleton registers the implementation type under the exported service name. -/
theorem serverSkeletonText_registerName (serviceName : GoString) :
    lit "s.RegisterName(\"" ++ serviceName ++ lit "\", new(" ++ serviceName ++ lit "Impl), \"\")" <:+:
      serverSkeletonText serviceName := by
  have h1 : lit "(addr string) error\x7b\n\t\t\ts := server.NewServer()\n\t\t\ts.RegisterName(\"" =
      lit "(addr string) error\x7b\n\t\t\ts := server.NewServer()\n\t\t\t" ++ lit "s.RegisterName(\"" := by decide
  have h2 : lit "Impl), \"\")\n\t\t\treturn s.Serve(\"tcp\", addr)\n\t\t\x7d\n\t" =
      lit "Impl), \"\")" ++ lit "\n\t\t\treturn s.Serve(\"tcp\", addr)\n\t\t\x7d\n\t" := by decide
  refine ⟨lit "type " ++ serviceName ++ lit "Impl struct \x7b\x7d\n\n\t\t// ServeFor" ++ serviceName ++ lit " starts a server only registers one service.\n\t\t// You can register more services and only start one server.\n\t\t// It blocks until the application exits.\n\t\tfunc ServeFor" ++ serviceName ++ lit "(addr string) error\x7b\n\t\t\ts := server.NewServer()\n\t\t\t",
    lit "\n\t\t\treturn s.Serve(\"tcp\", addr)\n\t\t\x7d\n\t", ?_⟩
  simp only [serverSkeletonText, h1, h2, List.append_assoc, List.nil_append, List.append_nil]

/-- The XClient factory passes the exported service name as service path. -/
theorem clientWrapperText_servicePath (serviceName : GoString) :
    lit "client.NewXClient(\"" ++ serviceName ++ lit "\", client.Failtry, client.RoundRobin, d, opt)" <:+:
      clientWrapperText serviceName := by
  have h1 : lit "(addr string) client.XClient \x7b\n\t\t\td := client.NewPeer2PeerDiscovery(\"tcp@\"+addr, \"\")\n\t\t\topt := client.DefaultOption\n\t\t\topt.SerializeType = protocol.ProtoBuffer\n\n\t\t\txclient := client.NewXClient(\"" =
      lit "(addr string) client.XClient \x7b\n\t\t\td := client.NewPeer2PeerDiscovery(\"tcp@\"+addr, \"\")\n\t\t\topt := client.DefaultOption\n\t\t\topt.SerializeType = protocol.ProtoBuffer\n\n\t\t\txclient := " ++ lit "client.NewXClient(\"" := by decide
  have h2 : lit "\", client.Failtry, client.RoundRobin, d, opt)\n\t\t\treturn xclient\n\t\t\x7d\n\n\t\t// ======================================================\n\t" =
      lit "\", client.Failtry, client.RoundRobin, d, opt)" ++ lit "\n\t\t\treturn xclient\n\t\t\x7d\n\n\t\t// ======================================================\n\t" := by decide
  refine ⟨lit "// " ++ serviceName ++ lit " is a client wrapped XClient.\n\t\ttype " ++ serviceName ++ lit "Client struct\x7b\n\t\t\txclient client.XClient\n\t\t\x7d\n\n\t\t// New" ++ serviceName ++ lit "Client wraps a XClient as " ++ serviceName ++ lit "Client.\n\t\t// You can pass a shared XClient object created by NewXClientFor" ++ serviceName ++ lit ".\n\t\tfunc New" ++ serviceName ++ lit "Client(xclient client.XClient) *" ++ serviceName ++ lit "Client \x7b\n\t\t\treturn &" ++ serviceName ++ lit "Client\x7bxclient: xclient\x7d\n\t\t\x7d\n\n\t\t// NewXClientFor" ++ serviceName ++ lit " creates a XClient.\n\t\t// You can configure this client with more options such as etcd registry, serialize type, select algorithm and fail mode.\n\t\tfunc NewXClientFor" ++ serviceName ++ lit "(addr string) client.XClient \x7b\n\t\t\td := client.NewPeer2PeerDiscovery(\"tcp@\"+addr, \"\")\n\t\t\topt := client.DefaultOption\n\t\t\topt.SerializeType = protocol.ProtoBuffer\n\n\t\t\txclient := ",
    lit "\n\t\t\treturn xclient\n\t\t\x7d\n\n\t\t// ======================================================\n\t", ?_⟩
  simp only [clientWrapperText, h1, h2, List.append_assoc, List.nil_append, List.append_nil]

/-- The receiver of the server stub is the implementation type. -/
theorem serverStubText_receiver (methodName serviceName inType outType : GoString) :
    lit "func (s *" ++ serviceName ++ lit "Impl) " <:+:
      serverStubText methodName serviceName inType outType := by
  have h1 : lit " is server rpc method as defined\n\t\tfunc (s *" =
      lit " is server rpc method as defined\n\t\t" ++ lit "func (s *" := by decide
  refine ⟨lit "// " ++ methodName ++ lit " is server rpc method as defined\n\t\t",
    methodName ++ lit "(ctx context.Context, args *" ++ inType ++ lit ", reply *" ++ outType ++ lit ") (err error)\x7b\n\t\t\t// TODO: add business logics\n\n\t\t\t// TODO: setting return values\n\t\t\t*reply = " ++ outType ++ lit "\x7b\x7d\n\n\t\t\treturn nil\n\t\t\x7d\n\t", ?_⟩
  simp only [serverStubText, h1, List.append_assoc, List.nil_append, List.append_nil]

/-- The receiver of the client stub is the client wrapper type. -/
theorem clientStubText_receiver (methodName serviceName inType outType rawName : GoString) :
    lit "func (c *" ++ serviceName ++ lit "Client) " <:+:
      clientStubText methodName serviceName inType outType rawName := by
  have h1 : lit " is client rpc method as defined\n\t\tfunc (c *" =
      lit " is client rpc method as defined\n\t\t" ++ lit "func (c *" := by decide
  refine ⟨lit "// " ++ methodName ++ lit " is client rpc method as defined\n\t\t",
    methodName ++ lit "(ctx context.Context, args *" ++ inType ++ lit ")(reply *" ++ outType ++ lit ", err error)\x7b\n\t\t\treply = &" ++ outType ++ lit "\x7b\x7d\n\t\t\terr = c.xclient.Call(ctx,\"" ++ rawName ++ lit "\",args, reply)\n\t\t\treturn reply, err\n\t\t\x7d\n\t", ?_⟩
  simp only [clientStubText, h1, List.append_assoc, List.nil_append, List.append_nil]

/-- The receiver of the single-target stub is the single-target wrapper type. -/
theorem oneClientStubText_receiver (methodName serviceName inType outType rawName : GoString) :
    lit "func (c *" ++ serviceName ++ lit "OneClient) " <:+:
      oneClientStubText methodName serviceName inType outType rawName := by
  have h1 : lit " is client rpc method as defined\n\t\tfunc (c *" =
      lit " is client rpc method as defined\n\t\t" ++ lit "func (c *" := by decide
  refine ⟨lit "// " ++ methodName ++ lit " is client rpc method as defined\n\t\t",
    methodName ++ lit "(ctx context.Context, args *" ++ inType ++ lit ")(reply *" ++ outType ++ lit ", err error)\x7b\n\t\t\treply = &" ++ outType ++ lit "\x7b\x7d\n\t\t\terr = c.oneclient.Call(ctx,c.serviceName,\"" ++ rawName ++ lit "\",args, reply)\n\t\t\treturn reply, err\n\t\t\x7d\n\t", ?_⟩
  simp only [oneClientStubText, h1, List.append_assoc, List.nil_append, List.append_nil]


/-! ## The executable containment test is sound and complete -/

theorem isPrefixB_iff : ∀ (x l : GoString), isPrefixB x l = true ↔ x <+: l
  | [], l => by simp [isPrefixB]
  | _ :: _, [] => by simp [isPrefixB]
  | a :: as, b :: bs => by
    by_cases hab : a = b
    · simp [isPrefixB, hab, isPrefixB_iff as bs, List.cons_prefix_cons]
    · simp [isPrefixB, hab, List.cons_prefix_cons]

theorem infixB_iff (x : GoString) : ∀ l : GoString, infixB x l = true ↔ x <:+: l
  | [] => by simp [infixB, List.infix_nil]
  | b :: l => by
    rw [List.infix_cons_iff, ← infixB_iff x l, ← isPrefixB_iff]
    by_cases hp : isPrefixB x (b :: l) = true
    · simp [infixB, hp]
    · simp [infixB, hp]

theorem declaresB_iff (frags : List GoString) (x : GoString) :
    declaresB frags x = true ↔ Declares frags x := by
  simp [declaresB, Declares, infixB_iff]

theorem Declares_emitted (g : Generator) (file : FileDescriptor)
    (h : ∀ s ∈ file.Service, ∀ m ∈ s.Method, resolves g.typeNameToObject m = true)
    {s : ServiceDescriptorProto} (hs : s ∈ file.Service) {f x : GoString}
    (hf : f ∈ serviceBlock g.typeNameToObject file s) (hx : x <:+: f) :
    Declares (emitted g file) x := by
  rw [emitted_ok g file h]
  exact ⟨f, List.mem_flatMap.mpr ⟨s, hs, hf⟩, hx⟩

theorem toUpperOfByte_lower (b : Byte) (h1 : 0x61 ≤ b.val) (h2 : b.val ≤ 0x7A) :
    toUpperOfByte b = [byte (b.val - 32)] := by
  have h3 : b.val < 0x80 := by omega
  simp [toUpperOfByte, h1, h2, h3]

theorem upperFirstLatter_lower_ne (b : Byte) (rest : GoString)
    (h1 : 0x61 ≤ b.val) (h2 : b.val ≤ 0x7A) :
    upperFirstLatter (b :: rest) ≠ b :: rest := by
  have hb : byte (b.val - 32) ≠ b := by
    intro h
    have hv := congrArg Fin.val h
    simp only [byte] at hv
    omega
  cases rest with
  | nil =>
    simp only [upperFirstLatter, toUpperOfByte_lower b h1 h2]
    intro h
    exact hb (List.cons.inj h).1
  | cons c cs =>
    simp only [upperFirstLatter, toUpperOfByte_lower b h1 h2]
    intro h
    exact hb (List.cons.inj h).1

/-! ## Claims -/

/-- C1: for a file whose service list is empty, `Generate` completes and returns the
generator exactly as it received it: no fragment printed, no import registered, no type
recorded. -/
theorem Generate_no_service (g : Generator) (file : FileDescriptor)
    (h : file.Service = []) :
    Generate g file = .ok () g ∧ (Generate g file).state.out = g.out ∧
      (Generate g file).state.imports = g.imports ∧
      (Generate g file).state.usedTypes = g.usedTypes := by
  simp [Generate, h, Outcome.state]

/-- Instance of C1: the file without services, on a generator that already holds output, an import and a recorded type. -/
theorem Generate_no_service_witness :
    emptyFile.Service = [] ∧
      (Generate busyGen emptyFile = .ok () busyGen ∧
        (Generate busyGen emptyFile).state.out = busyGen.out ∧
        (Generate busyGen emptyFile).state.imports = busyGen.imports ∧
        (Generate busyGen emptyFile).state.usedTypes = busyGen.usedTypes) :=
  ⟨rfl, Generate_no_service busyGen emptyFile rfl⟩

/-- C2: for a file with at least one service, whether generation completes or stops on
an unresolved type, the `AddImport` calls made are exactly the four paths of the rpcx
server, client and protocol packages and `context`, once each, in that order. -/
theorem Generate_imports (g : Generator) (file : FileDescriptor)
    (h : file.Service ≠ []) :
    (Generate g file).state.imports =
      g.imports ++ [lit "github.com/smallnest/rpcx/server",
        lit "github.com/smallnest/rpcx/client", lit "github.com/smallnest/rpcx/protocol",
        lit "context"] := by
  rw [Generate_of_services g file h]
  rcases resolves_all_or_some g.typeNameToObject file.Service with hall | hsome
  · rw [forEachService_ok file file.Service _ 0 (by simpa using hall)]
    simp [Outcome.state, Generator.AddImport, rpcxServerPkgPath, rpcxClientPkgPath,
      rpcxProtocolPkgPath]
  · obtain ⟨ref, frags, used, he, -, -⟩ :=
      forEachService_fail file file.Service
        ((((g.AddImport rpcxServerPkgPath).AddImport rpcxClientPkgPath).AddImport
          rpcxProtocolPkgPath).AddImport (lit "context")) 0 (by simpa using hsome)
    rw [he]
    simp [Outcome.state, Generator.AddImport, rpcxServerPkgPath, rpcxClientPkgPath,
      rpcxProtocolPkgPath]

/-- Instance of C2: the greeter file, on a generator that already holds an import. -/
theorem Generate_imports_witness :
    greeterFile.Service ≠ [] ∧
      (Generate busyGen greeterFile).state.imports =
        busyGen.imports ++ [lit "github.com/smallnest/rpcx/server",
          lit "github.com/smallnest/rpcx/client", lit "github.com/smallnest/rpcx/protocol",
          lit "context"] :=
  ⟨by simp [greeterFile], Generate_imports busyGen greeterFile (by simp [greeterFile])⟩

/-- C3: on the name `é` (UTF-8 bytes C3 A9) `upperFirstLatter` does not return `É`
(bytes C3 89): it converts the first byte alone to the rune U+00C3, upper-cases and
re-encodes that as C3 83, and appends the remaining byte A9, so the first character is
not upper-cased and the result is one byte longer than the name. On the empty name it
returns the empty name. -/
theorem upperFirstLatter_multibyte :
    upperFirstLatter [] = [] ∧
      lit "é" = [0xC3, 0xA9] ∧ lit "É" = [0xC3, 0x89] ∧
      upperFirstLatter (lit "é") = [0xC3, 0x83, 0xA9] ∧
      upperFirstLatter (lit "é") ≠ lit "É" := by
  decide

/-- C4: on the name `é` a second application of `upperFirstLatter` changes the result of
the first: the first gives the bytes C3 83 A9, the second C3 83 83 A9. -/
theorem upperFirstLatter_twice_multibyte :
    upperFirstLatter (lit "é") = [0xC3, 0x83, 0xA9] ∧
      upperFirstLatter (upperFirstLatter (lit "é")) = [0xC3, 0x83, 0x83, 0xA9] ∧
      upperFirstLatter (upperFirstLatter (lit "é")) ≠ upperFirstLatter (lit "é") := by
  decide

/-- C5, as stated, fails: in `brokenFile` the input type of `SayLost` has no object, the
run fails, and the output then holds the seven fragments printed before the failing
lookup (the service's boilerplate and the stub of `SayHello`) instead of being unchanged. -/
theorem failed_run_keeps_output :
    (∃ s ∈ brokenFile.Service, ∃ m ∈ s.Method,
        resolves helloGen.typeNameToObject m = false) ∧
      (Generate helloGen brokenFile).failed = true ∧
      (Generate helloGen brokenFile).state.out ≠ helloGen.out ∧
      ((Generate helloGen brokenFile).state.out).length = 7 := by
  refine ⟨⟨⟨lit "Greeter", [sayHello, sayLost]⟩, by simp [brokenFile], sayLost, by simp,
    by decide⟩, by decide, ?_, by decide⟩
  intro h
  have hl : ((Generate helloGen brokenFile).state.out).length = 7 := by decide
  rw [h] at hl
  exact absurd hl (by decide)

/-- C5, amended: when some method's input or output type has no object in the symbol
table, `Generate` does not complete: the host's `Fail` stops it at the first absent
reference in lookup order and no output is handed to the host for the file. Nothing is
rolled back in the buffer: at the failure it holds the earlier output, then the whole
blocks of the services before the first service with an absent reference, then the six
header and server-skeleton fragments of that service, then the server stubs of its
methods before the first method with an absent reference, and nothing else; the four
imports are registered and the references looked up so far are recorded. -/
theorem Generate_unresolved (g : Generator) (file : FileDescriptor)
    (h : ∃ s ∈ file.Service, ∃ m ∈ s.Method, resolves g.typeNameToObject m = false) :
    ∃ pre s post mpre m mpost,
      file.Service = pre ++ s :: post ∧ s.Method = mpre ++ m :: mpost ∧
      (∀ x ∈ pre, ∀ y ∈ x.Method, resolves g.typeNameToObject y = true) ∧
      (∀ y ∈ mpre, resolves g.typeNameToObject y = true) ∧
      resolves g.typeNameToObject m = false ∧
      g.typeNameToObject (absentRef g.typeNameToObject m) = none ∧
      (absentRef g.typeNameToObject m = m.GetInputType ∨
        ((g.typeNameToObject m.GetInputType).isSome = true ∧
          absentRef g.typeNameToObject m = m.GetOutputType)) ∧
      Generate g file =
        .fail (absentRef g.typeNameToObject m)
          ⟨g.typeNameToObject,
            g.out ++ (pre.flatMap (serviceBlock g.typeNameToObject file) ++
              (serverBoilerplate file s ++ mpre.map (serverStub g.typeNameToObject s))),
            g.imports ++ [lit "github.com/smallnest/rpcx/server",
              lit "github.com/smallnest/rpcx/client", lit "github.com/smallnest/rpcx/protocol",
              lit "context"],
            g.usedTypes ++ (pre.flatMap serviceRefs ++
              (mpre.flatMap typeRefs ++ refsLookedUp g.typeNameToObject m))⟩ ∧
      (Generate g file).delivered = none := by
  obtain ⟨pre, s, post, mpre, m, mpost, hss, hms, hpre, hmpre, hm⟩ :=
    exists_first_unresolved g.typeNameToObject file.Service h
  have hne : file.Service ≠ [] := by
    rw [hss]
    simp
  have hrun : Generate g file =
      .fail (absentRef g.typeNameToObject m)
        ⟨g.typeNameToObject,
          g.out ++ (pre.flatMap (serviceBlock g.typeNameToObject file) ++
            (serverBoilerplate file s ++ mpre.map (serverStub g.typeNameToObject s))),
          g.imports ++ [lit "github.com/smallnest/rpcx/server",
            lit "github.com/smallnest/rpcx/client", lit "github.com/smallnest/rpcx/protocol",
            lit "context"],
          g.usedTypes ++ (pre.flatMap serviceRefs ++
            (mpre.flatMap typeRefs ++ refsLookedUp g.typeNameToObject m))⟩ := by
    rw [Generate_of_services g file hne, hss,
      forEachService_fail_exact file s post mpre m mpost hms pre _ 0 (by simpa using hpre)
        (by simpa using hmpre) (by simpa using hm)]
    simp [Generator.AddImport, Generator.extend, rpcxServerPkgPath, rpcxClientPkgPath,
      rpcxProtocolPkgPath]
  refine ⟨pre, s, post, mpre, m, mpost, hss, hms, hpre, hmpre, hm, ?_, ?_, hrun, ?_⟩
  · cases ha : g.typeNameToObject m.GetInputType with
    | none => simp [absentRef, ha]
    | some a =>
      cases hb : g.typeNameToObject m.GetOutputType with
      | none => simp [absentRef, ha, hb]
      | some b => simp [resolves, ha, hb] at hm
  · cases ha : g.typeNameToObject m.GetInputType with
    | none => left; simp [absentRef, ha]
    | some a => right; simp [absentRef, ha]
  · rw [hrun]
    rfl

/-- Instance of the amended C5: the file in which a fully resolving service precedes the
service whose second method has an input type without object. -/
theorem Generate_unresolved_witness :
    (∃ s ∈ lateFile.Service, ∃ m ∈ s.Method,
        resolves busyGen.typeNameToObject m = false) ∧
    ∃ pre s post mpre m mpost,
      lateFile.Service = pre ++ s :: post ∧ s.Method = mpre ++ m :: mpost ∧
      (∀ x ∈ pre, ∀ y ∈ x.Method, resolves busyGen.typeNameToObject y = true) ∧
      (∀ y ∈ mpre, resolves busyGen.typeNameToObject y = true) ∧
      resolves busyGen.typeNameToObject m = false ∧
      busyGen.typeNameToObject (absentRef busyGen.typeNameToObject m) = none ∧
      (absentRef busyGen.typeNameToObject m = m.GetInputType ∨
        ((busyGen.typeNameToObject m.GetInputType).isSome = true ∧
          absentRef busyGen.typeNameToObject m = m.GetOutputType)) ∧
      Generate busyGen lateFile =
        .fail (absentRef busyGen.typeNameToObject m)
          ⟨busyGen.typeNameToObject,
            busyGen.out ++ (pre.flatMap (serviceBlock busyGen.typeNameToObject lateFile) ++
              (serverBoilerplate lateFile s ++
                mpre.map (serverStub busyGen.typeNameToObject s))),
            busyGen.imports ++ [lit "github.com/smallnest/rpcx/server",
              lit "github.com/smallnest/rpcx/client", lit "github.com/smallnest/rpcx/protocol",
              lit "context"],
            busyGen.usedTypes ++ (pre.flatMap serviceRefs ++
              (mpre.flatMap typeRefs ++ refsLookedUp busyGen.typeNameToObject m))⟩ ∧
      (Generate busyGen lateFile).delivered = none :=
  have h : ∃ s ∈ lateFile.Service, ∃ m ∈ s.Method,
      resolves busyGen.typeNameToObject m = false :=
    ⟨brokenGreeter, by simp [lateFile], sayLost, by simp [brokenGreeter], by decide⟩
  ⟨h, Generate_unresolved busyGen lateFile h⟩

/-- C6: when every type reference of the file resolves, `Generate` completes and the
fragments it adds are the blocks of the services in declaration order, each block being
the server boilerplate, one server stub per method in order, the client boilerplate, one
client stub per method in order, the single-target boilerplate and one single-target stub
per method in order; a service with `m` methods adds `12 + 3 * m` fragments, `3 * m` of
them method stubs. -/
theorem Generate_blocks (g : Generator) (file : FileDescriptor)
    (h : ∀ s ∈ file.Service, ∀ m ∈ s.Method, resolves g.typeNameToObject m = true) :
    (Generate g file).failed = false ∧
      (Generate g file).state.out = g.out ++ file.Service.flatMap (fun s =>
        serverBoilerplate file s ++ s.Method.map (serverStub g.typeNameToObject s) ++
        (clientBoilerplate s ++ s.Method.map (clientStub g.typeNameToObject s)) ++
        (oneClientBoilerplate s ++ s.Method.map (oneClientStub g.typeNameToObject s))) ∧
      (∀ s : ServiceDescriptorProto,
        (serverBoilerplate file s).length = 6 ∧ (clientBoilerplate s).length = 3 ∧
        (oneClientBoilerplate s).length = 3 ∧
        (serviceBlock g.typeNameToObject file s).length = 12 + 3 * s.Method.length) := by
  refine ⟨(Generate_ok g file h).1, (Generate_ok g file h).2.1, ?_⟩
  intro s
  refine ⟨rfl, rfl, rfl, ?_⟩
  simp [serviceBlock, serverBoilerplate, clientBoilerplate, oneClientBoilerplate]
  omega

/-- Instance of C6: the greeter file. -/
theorem Generate_blocks_witness :
    (∀ s ∈ greeterFile.Service, ∀ m ∈ s.Method,
        resolves busyGen.typeNameToObject m = true) ∧
      ((Generate busyGen greeterFile).failed = false ∧
      (Generate busyGen greeterFile).state.out =
        busyGen.out ++ greeterFile.Service.flatMap (fun s =>
          serverBoilerplate greeterFile s ++
            s.Method.map (serverStub busyGen.typeNameToObject s) ++
          (clientBoilerplate s ++ s.Method.map (clientStub busyGen.typeNameToObject s)) ++
          (oneClientBoilerplate s ++
            s.Method.map (oneClientStub busyGen.typeNameToObject s))) ∧
      (∀ s : ServiceDescriptorProto,
        (serverBoilerplate greeterFile s).length = 6 ∧ (clientBoilerplate s).length = 3 ∧
        (oneClientBoilerplate s).length = 3 ∧
        (serviceBlock busyGen.typeNameToObject greeterFile s).length =
          12 + 3 * s.Method.length)) :=
  have h : ∀ s ∈ greeterFile.Service, ∀ m ∈ s.Method,
      resolves busyGen.typeNameToObject m = true := by decide
  ⟨h, Generate_blocks busyGen greeterFile h⟩

/-- C7, as stated, fails: in `brokenFile` the method `SayHello` of `Greeter` resolves to
`HelloRequest` and `HelloReply`, but the run stops at `SayLost` before the client and
single-target families are printed, so none of their declarations is emitted and nothing
is handed to the host. -/
theorem declarations_missing_after_failure :
    brokenGreeter ∈ brokenFile.Service ∧ sayHello ∈ brokenGreeter.Method ∧
      helloGen.typeNameToObject sayHello.GetInputType = some ⟨lit "HelloRequest"⟩ ∧
      helloGen.typeNameToObject sayHello.GetOutputType = some ⟨lit "HelloReply"⟩ ∧
      upperFirstLatter brokenGreeter.GetName = lit "Greeter" ∧
      (Generate helloGen brokenFile).delivered = none ∧
      ¬ Declares (emitted helloGen brokenFile) (lit "type GreeterClient struct") ∧
      ¬ Declares (emitted helloGen brokenFile)
        (lit "func NewGreeterClient(xclient client.XClient) *GreeterClient") ∧
      ¬ Declares (emitted helloGen brokenFile)
        (lit "func (c *GreeterClient) SayHello(ctx context.Context, args *HelloRequest)(reply *HelloReply, err error)") ∧
      ¬ Declares (emitted helloGen brokenFile) (lit "type GreeterOneClient struct") := by
  refine ⟨by decide, by decide, by decide, by decide, by decide, by decide, ?_, ?_, ?_, ?_⟩
  · intro h
    exact absurd ((declaresB_iff _ _).mpr h) (by decide)
  · intro h
    exact absurd ((declaresB_iff _ _).mpr h) (by decide)
  · intro h
    exact absurd ((declaresB_iff _ _).mpr h) (by decide)
  · intro h
    exact absurd ((declaresB_iff _ _).mpr h) (by decide)

/-- C7, amended: in a run where every type reference of the file resolves (so that
`Generate` completes), for a service of the file with
exported name `N` and a method of it with exported name `M` whose input and output
references resolve to `I` and `O`, the emitted fragments contain the declarations of
`NImpl`, `ServeForN`, the server method `M`, `NClient`, `NewNClient`, `NewXClientForN`,
the client method `M`, `NOneClient`, `NewNOneClient` and the single-target method `M`,
with `I` and `O` as argument and reply types. -/
theorem Generate_declares (g : Generator) (file : FileDescriptor)
    (s : ServiceDescriptorProto) (m : MethodDescriptorProto) (I O : GoString)
    (h : ∀ x ∈ file.Service, ∀ y ∈ x.Method, resolves g.typeNameToObject y = true)
    (hs : s ∈ file.Service) (hm : m ∈ s.Method)
    (hI : g.typeNameToObject m.GetInputType = some ⟨I⟩)
    (hO : g.typeNameToObject m.GetOutputType = some ⟨O⟩) :
    (Generate g file).failed = false ∧
    Declares (emitted g file)
      (lit "type " ++ upperFirstLatter s.GetName ++ lit "Impl struct \x7b\x7d") ∧
    Declares (emitted g file)
      (lit "func ServeFor" ++ upperFirstLatter s.GetName ++ lit "(addr string) error") ∧
    Declares (emitted g file)
      (lit "func (s *" ++ upperFirstLatter s.GetName ++ lit "Impl) " ++
        upperFirstLatter m.GetName ++ lit "(ctx context.Context, args *" ++ I ++
        lit ", reply *" ++ O ++ lit ") (err error)") ∧
    Declares (emitted g file)
      (lit "type " ++ upperFirstLatter s.GetName ++ lit "Client struct") ∧
    Declares (emitted g file)
      (lit "func New" ++ upperFirstLatter s.GetName ++ lit "Client(xclient client.XClient) *" ++
        upperFirstLatter s.GetName ++ lit "Client") ∧
    Declares (emitted g file)
      (lit "func NewXClientFor" ++ upperFirstLatter s.GetName ++
        lit "(addr string) client.XClient") ∧
    Declares (emitted g file)
      (lit "func (c *" ++ upperFirstLatter s.GetName ++ lit "Client) " ++
        upperFirstLatter m.GetName ++ lit "(ctx context.Context, args *" ++ I ++
        lit ")(reply *" ++ O ++ lit ", err error)") ∧
    Declares (emitted g file)
      (lit "type " ++ upperFirstLatter s.GetName ++ lit "OneClient struct") ∧
    Declares (emitted g file)
      (lit "func New" ++ upperFirstLatter s.GetName ++
        lit "OneClient(oneclient client.OneClient) *" ++ upperFirstLatter s.GetName ++
        lit "OneClient") ∧
    Declares (emitted g file)
      (lit "func (c *" ++ upperFirstLatter s.GetName ++ lit "OneClient) " ++
        upperFirstLatter m.GetName ++ lit "(ctx context.Context, args *" ++ I ++
        lit ")(reply *" ++ O ++ lit ", err error)") := by
  have hrI : resolved g.typeNameToObject m.GetInputType = I := resolved_of_some hI
  have hrO : resolved g.typeNameToObject m.GetOutputType = O := resolved_of_some hO
  have hsrv : serverStubText (upperFirstLatter m.GetName) (upperFirstLatter s.GetName) I O ∈
      serviceBlock g.typeNameToObject file s := by
    have : serverStub g.typeNameToObject s m ∈ serviceBlock g.typeNameToObject file s := by
      simp only [serviceBlock, List.mem_append, List.mem_map]
      exact Or.inl (Or.inl (Or.inr ⟨m, hm, rfl⟩))
    simpa [serverStub, hrI, hrO] using this
  have hcli : clientStubText (upperFirstLatter m.GetName) (upperFirstLatter s.GetName) I O
      m.GetName ∈ serviceBlock g.typeNameToObject file s := by
    have : clientStub g.typeNameToObject s m ∈ serviceBlock g.typeNameToObject file s := by
      simp only [serviceBlock, List.mem_append, List.mem_map]
      exact Or.inl (Or.inr (Or.inr ⟨m, hm, rfl⟩))
    simpa [clientStub, hrI, hrO] using this
  have hone : oneClientStubText (upperFirstLatter m.GetName) (upperFirstLatter s.GetName) I O
      m.GetName ∈ serviceBlock g.typeNameToObject file s := by
    have : oneClientStub g.typeNameToObject s m ∈ serviceBlock g.typeNameToObject file s := by
      simp only [serviceBlock, List.mem_append, List.mem_map]
      exact Or.inr (Or.inr ⟨m, hm, rfl⟩)
    simpa [oneClientStub, hrI, hrO] using this
  have hskel : serverSkeletonText (upperFirstLatter s.GetName) ∈
      serviceBlock g.typeNameToObject file s := by
    simp [serviceBlock, serverBoilerplate]
  have hcw : clientWrapperText (upperFirstLatter s.GetName) ∈
      serviceBlock g.typeNameToObject file s := by
    simp [serviceBlock, clientBoilerplate]
  have how : oneClientWrapperText (upperFirstLatter s.GetName) ∈
      serviceBlock g.typeNameToObject file s := by
    simp [serviceBlock, oneClientBoilerplate]
  exact ⟨(Generate_ok g file h).1,
    Declares_emitted g file h hs hskel (serverSkeletonText_type _),
    Declares_emitted g file h hs hskel (serverSkeletonText_serve _),
    Declares_emitted g file h hs hsrv (serverStubText_method _ _ _ _),
    Declares_emitted g file h hs hcw (clientWrapperText_type _),
    Declares_emitted g file h hs hcw (clientWrapperText_new _),
    Declares_emitted g file h hs hcw (clientWrapperText_factory _),
    Declares_emitted g file h hs hcli (clientStubText_method _ _ _ _ _),
    Declares_emitted g file h hs how (oneClientWrapperText_type _),
    Declares_emitted g file h hs how (oneClientWrapperText_new _),
    Declares_emitted g file h hs hone (oneClientStubText_method _ _ _ _ _)⟩

/-- Instance of the amended C7: service `Greeter`, method `SayHello`, types `HelloRequest` and `HelloReply`. -/
theorem Generate_declares_witness :
    ((∀ x ∈ greeterFile.Service, ∀ y ∈ x.Method,
        resolves helloGen.typeNameToObject y = true) ∧
      greeter ∈ greeterFile.Service ∧ sayHello ∈ greeter.Method ∧
      helloGen.typeNameToObject sayHello.GetInputType = some ⟨lit "HelloRequest"⟩ ∧
      helloGen.typeNameToObject sayHello.GetOutputType = some ⟨lit "HelloReply"⟩) ∧
    ((Generate helloGen greeterFile).failed = false ∧
    Declares (emitted helloGen greeterFile) (lit "type GreeterImpl struct \x7b\x7d") ∧
    Declares (emitted helloGen greeterFile) (lit "func ServeForGreeter(addr string) error") ∧
    Declares (emitted helloGen greeterFile)
      (lit "func (s *GreeterImpl) SayHello(ctx context.Context, args *HelloRequest, reply *HelloReply) (err error)") ∧
    Declares (emitted helloGen greeterFile) (lit "type GreeterClient struct") ∧
    Declares (emitted helloGen greeterFile)
      (lit "func NewGreeterClient(xclient client.XClient) *GreeterClient") ∧
    Declares (emitted helloGen greeterFile)
      (lit "func NewXClientForGreeter(addr string) client.XClient") ∧
    Declares (emitted helloGen greeterFile)
      (lit "func (c *GreeterClient) SayHello(ctx context.Context, args *HelloRequest)(reply *HelloReply, err error)") ∧
    Declares (emitted helloGen greeterFile) (lit "type GreeterOneClient struct") ∧
    Declares (emitted helloGen greeterFile)
      (lit "func NewGreeterOneClient(oneclient client.OneClient) *GreeterOneClient") ∧
    Declares (emitted helloGen greeterFile)
      (lit "func (c *GreeterOneClient) SayHello(ctx context.Context, args *HelloRequest)(reply *HelloReply, err error)")) :=
  ⟨⟨by decide, by decide, by decide, by decide, by decide⟩,
    Generate_declares helloGen greeterFile greeter sayHello (lit "HelloRequest")
      (lit "HelloReply") (by decide) (by decide) (by decide) (by decide) (by decide)⟩

/-- C8: for a method whose type references resolve, `generateClientCode` and
`generateOneClientCode` each print one stub; the call in the stub passes the raw method
name `method.GetName()` as the string literal (`c.xclient.Call(ctx,"<raw>",args, reply)`
and `c.oneclient.Call(ctx,c.serviceName,"<raw>",args, reply)`), while the method declared
by the stub is named `upperFirstLatter(<raw>)`; the two names differ whenever the raw
name begins with a lower-case ASCII letter. -/
theorem client_stubs_pass_raw_name (g : Generator) (s : ServiceDescriptorProto)
    (m : MethodDescriptorProto) (h : resolves g.typeNameToObject m = true) :
    (generateClientCode g s m).failed = false ∧
    (generateOneClientCode g s m).failed = false ∧
    (generateClientCode g s m).state.out = g.out ++ [clientStub g.typeNameToObject s m] ∧
    (generateOneClientCode g s m).state.out =
      g.out ++ [oneClientStub g.typeNameToObject s m] ∧
    lit "c.xclient.Call(ctx,\"" ++ m.GetName ++ lit "\",args, reply)" <:+:
      clientStub g.typeNameToObject s m ∧
    lit "func (c *" ++ upperFirstLatter s.GetName ++ lit "Client) " ++
        upperFirstLatter m.GetName ++ lit "(ctx context.Context, args *" ++
        resolved g.typeNameToObject m.GetInputType ++ lit ")(reply *" ++
        resolved g.typeNameToObject m.GetOutputType ++ lit ", err error)" <:+:
      clientStub g.typeNameToObject s m ∧
    lit "c.oneclient.Call(ctx,c.serviceName,\"" ++ m.GetName ++ lit "\",args, reply)" <:+:
      oneClientStub g.typeNameToObject s m ∧
    lit "func (c *" ++ upperFirstLatter s.GetName ++ lit "OneClient) " ++
        upperFirstLatter m.GetName ++ lit "(ctx context.Context, args *" ++
        resolved g.typeNameToObject m.GetInputType ++ lit ")(reply *" ++
        resolved g.typeNameToObject m.GetOutputType ++ lit ", err error)" <:+:
      oneClientStub g.typeNameToObject s m ∧
    (∀ (b : Byte) (rest : GoString), m.GetName = b :: rest → 0x61 ≤ b.val → b.val ≤ 0x7A →
      upperFirstLatter m.GetName ≠ m.GetName) := by
  refine ⟨?_, ?_, ?_, ?_, clientStubText_call _ _ _ _ _, clientStubText_method _ _ _ _ _,
    oneClientStubText_call _ _ _ _ _, oneClientStubText_method _ _ _ _ _, ?_⟩
  · rw [generateClientCode_eq, stubStep_ok _ _ _ h]; rfl
  · rw [generateOneClientCode_eq, stubStep_ok _ _ _ h]; rfl
  · rw [generateClientCode_eq, stubStep_ok _ _ _ h]; rfl
  · rw [generateOneClientCode_eq, stubStep_ok _ _ _ h]; rfl
  · intro b rest hb h1 h2
    rw [hb]
    exact upperFirstLatter_lower_ne b rest h1 h2

/-- Instance of C8: the method declared as `sayHello` is called as `"sayHello"` and declared as `SayHello`. -/
theorem client_stubs_pass_raw_name_witness :
    resolves helloGen.typeNameToObject lowerSayHello = true ∧
    ((generateClientCode helloGen greeter lowerSayHello).failed = false ∧
    (generateOneClientCode helloGen greeter lowerSayHello).failed = false ∧
    (generateClientCode helloGen greeter lowerSayHello).state.out =
      helloGen.out ++ [clientStub helloGen.typeNameToObject greeter lowerSayHello] ∧
    (generateOneClientCode helloGen greeter lowerSayHello).state.out =
      helloGen.out ++ [oneClientStub helloGen.typeNameToObject greeter lowerSayHello] ∧
    lit "c.xclient.Call(ctx,\"sayHello\",args, reply)" <:+:
      clientStub helloGen.typeNameToObject greeter lowerSayHello ∧
    lit "func (c *GreeterClient) SayHello(ctx context.Context, args *HelloRequest)(reply *HelloReply, err error)" <:+:
      clientStub helloGen.typeNameToObject greeter lowerSayHello ∧
    lit "c.oneclient.Call(ctx,c.serviceName,\"sayHello\",args, reply)" <:+:
      oneClientStub helloGen.typeNameToObject greeter lowerSayHello ∧
    lit "func (c *GreeterOneClient) SayHello(ctx context.Context, args *HelloRequest)(reply *HelloReply, err error)" <:+:
      oneClientStub helloGen.typeNameToObject greeter lowerSayHello ∧
    (∀ (b : Byte) (rest : GoString), lowerSayHello.GetName = b :: rest → 0x61 ≤ b.val →
      b.val ≤ 0x7A → upperFirstLatter lowerSayHello.GetName ≠ lowerSayHello.GetName)) :=
  ⟨by decide, client_stubs_pass_raw_name helloGen greeter lowerSayHello (by decide)⟩

/-- C9, as stated, fails: for the service declared as `greeter` the emitted constructor
assigns the literal `"Greeter"` to `serviceName`; the raw name `"greeter"` is assigned
nowhere in the emitted text. -/
theorem oneClient_serviceName_not_raw :
    (Generate helloGen lowerFile).failed = false ∧
      lowerGreeter.GetName = lit "greeter" ∧
      ¬ Declares (emitted helloGen lowerFile)
        (lit "serviceName: \"" ++ lowerGreeter.GetName ++ lit "\"") ∧
      Declares (emitted helloGen lowerFile) (lit "serviceName: \"Greeter\",") := by
  refine ⟨by decide, by decide, ?_, ?_⟩
  · intro h
    exact absurd ((declaresB_iff _ _).mpr h) (by decide)
  · exact (declaresB_iff _ _).mp (by decide)

/-- C9, amended: when every type reference of the file resolves, the constructor
`New<N>OneClient` emitted for a service assigns to `serviceName` the exported name
`N = upperFirstLatter(service.GetName())`, the name the server skeleton registers; it is
the raw name only when `upperFirstLatter` leaves the raw name unchanged. -/
theorem oneClient_serviceName_exported (g : Generator) (file : FileDescriptor)
    (s : ServiceDescriptorProto)
    (h : ∀ x ∈ file.Service, ∀ y ∈ x.Method, resolves g.typeNameToObject y = true)
    (hs : s ∈ file.Service) :
    (Generate g file).failed = false ∧
    Declares (emitted g file)
      (lit "return &" ++ upperFirstLatter s.GetName ++
        lit "OneClient\x7b\n\t\t\t\tserviceName: \"" ++ upperFirstLatter s.GetName ++
        lit "\",\n\t\t\t\toneclient: oneclient,") ∧
    Declares (emitted g file)
      (lit "s.RegisterName(\"" ++ upperFirstLatter s.GetName ++ lit "\", new(") := by
  have hskel : serverSkeletonText (upperFirstLatter s.GetName) ∈
      serviceBlock g.typeNameToObject file s := by
    simp [serviceBlock, serverBoilerplate]
  have how : oneClientWrapperText (upperFirstLatter s.GetName) ∈
      serviceBlock g.typeNameToObject file s := by
    simp [serviceBlock, oneClientBoilerplate]
  exact ⟨(Generate_ok g file h).1,
    Declares_emitted g file h hs how (oneClientWrapperText_serviceName _),
    Declares_emitted g file h hs hskel (serverSkeletonText_register _)⟩

/-- Instance of the amended C9: the service declared as `greeter` is stored and registered as `"Greeter"`. -/
theorem oneClient_serviceName_exported_witness :
    ((∀ x ∈ lowerFile.Service, ∀ y ∈ x.Method,
        resolves helloGen.typeNameToObject y = true) ∧ lowerGreeter ∈ lowerFile.Service) ∧
    ((Generate helloGen lowerFile).failed = false ∧
    Declares (emitted helloGen lowerFile)
      (lit "return &GreeterOneClient\x7b\n\t\t\t\tserviceName: \"Greeter\",\n\t\t\t\toneclient: oneclient,") ∧
    Declares (emitted helloGen lowerFile) (lit "s.RegisterName(\"Greeter\", new(")) :=
  ⟨⟨by decide, by decide⟩,
    oneClient_serviceName_exported helloGen lowerFile lowerGreeter (by decide) (by decide)⟩

/-- C10: for the file declaring `Greeter` the emitted text mentions `NewOneClientForGreeter`
in the doc comment of `NewGreeterOneClient`, and declares the factory
`NewXClientForGreeter` of the client-wrapper family, but it declares no function whose
name starts with `NewOneClientFor`. -/
theorem oneClient_factory_missing :
    (Generate helloGen greeterFile).failed = false ∧
      Declares (emitted helloGen greeterFile)
        (lit "// You can pass a shared OneClient object created by NewOneClientForGreeter.") ∧
      Declares (emitted helloGen greeterFile) (lit "func NewXClientForGreeter(") ∧
      ¬ Declares (emitted helloGen greeterFile) (lit "func NewOneClientFor") := by
  refine ⟨by decide, (declaresB_iff _ _).mp (by decide), (declaresB_iff _ _).mp (by decide), ?_⟩
  intro h
  exact absurd ((declaresB_iff _ _).mpr h) (by decide)

/-- C11: for a method whose two type references resolve in the symbol table, the server
stub, the client stub and the single-target stub, printed from any three generator states
over that table, carry the same type names: the input position of each holds the resolved
name of the input reference and the output positions hold the resolved name of the
output reference; the reference strings themselves are not arguments of the texts. -/
theorem stubs_share_type_names (tbl : GoString → Option Object) (g1 g2 g3 : Generator)
    (s : ServiceDescriptorProto) (m : MethodDescriptorProto)
    (h1 : g1.typeNameToObject = tbl) (h2 : g2.typeNameToObject = tbl)
    (h3 : g3.typeNameToObject = tbl) (h : resolves tbl m = true) :
    (generateServerCode g1 s m).state.out =
      g1.out ++ [serverStubText (upperFirstLatter m.GetName) (upperFirstLatter s.GetName)
        (resolved tbl m.GetInputType) (resolved tbl m.GetOutputType)] ∧
    (generateClientCode g2 s m).state.out =
      g2.out ++ [clientStubText (upperFirstLatter m.GetName) (upperFirstLatter s.GetName)
        (resolved tbl m.GetInputType) (resolved tbl m.GetOutputType) m.GetName] ∧
    (generateOneClientCode g3 s m).state.out =
      g3.out ++ [oneClientStubText (upperFirstLatter m.GetName) (upperFirstLatter s.GetName)
        (resolved tbl m.GetInputType) (resolved tbl m.GetOutputType) m.GetName] ∧
    lit "(ctx context.Context, args *" ++ resolved tbl m.GetInputType ++ lit ", reply *" ++
        resolved tbl m.GetOutputType ++ lit ") (err error)" <:+:
      serverStubText (upperFirstLatter m.GetName) (upperFirstLatter s.GetName)
        (resolved tbl m.GetInputType) (resolved tbl m.GetOutputType) ∧
    lit "(ctx context.Context, args *" ++ resolved tbl m.GetInputType ++ lit ")(reply *" ++
        resolved tbl m.GetOutputType ++ lit ", err error)" <:+:
      clientStubText (upperFirstLatter m.GetName) (upperFirstLatter s.GetName)
        (resolved tbl m.GetInputType) (resolved tbl m.GetOutputType) m.GetName ∧
    lit "(ctx context.Context, args *" ++ resolved tbl m.GetInputType ++ lit ")(reply *" ++
        resolved tbl m.GetOutputType ++ lit ", err error)" <:+:
      oneClientStubText (upperFirstLatter m.GetName) (upperFirstLatter s.GetName)
        (resolved tbl m.GetInputType) (resolved tbl m.GetOutputType) m.GetName := by
  subst h1
  refine ⟨?_, ?_, ?_, serverStubText_types _ _ _ _, clientStubText_types _ _ _ _ _,
    oneClientStubText_types _ _ _ _ _⟩
  · rw [generateServerCode_eq, stubStep_ok _ _ _ h]; rfl
  · rw [generateClientCode_eq, stubStep_ok _ _ _ (by rw [h2]; exact h), h2]; rfl
  · rw [generateOneClientCode_eq, stubStep_ok _ _ _ (by rw [h3]; exact h), h3]; rfl

/-- Instance of C11: `SayHello` on three generators over the greeter table, two of them
holding earlier output. -/
theorem stubs_share_type_names_witness :
    (helloGen.typeNameToObject = helloTable ∧ busyGen.typeNameToObject = helloTable ∧
      (busyGen.extend [lit "x"] [lit "y"]).typeNameToObject = helloTable ∧
      resolves helloTable sayHello = true) ∧
    ((generateServerCode helloGen greeter sayHello).state.out =
      helloGen.out ++ [serverStubText (upperFirstLatter sayHello.GetName)
        (upperFirstLatter greeter.GetName) (resolved helloTable sayHello.GetInputType)
        (resolved helloTable sayHello.GetOutputType)] ∧
    (generateClientCode busyGen greeter sayHello).state.out =
      busyGen.out ++ [clientStubText (upperFirstLatter sayHello.GetName)
        (upperFirstLatter greeter.GetName) (resolved helloTable sayHello.GetInputType)
        (resolved helloTable sayHello.GetOutputType) sayHello.GetName] ∧
    (generateOneClientCode (busyGen.extend [lit "x"] [lit "y"]) greeter sayHello).state.out =
      (busyGen.extend [lit "x"] [lit "y"]).out ++
        [oneClientStubText (upperFirstLatter sayHello.GetName)
        (upperFirstLatter greeter.GetName) (resolved helloTable sayHello.GetInputType)
        (resolved helloTable sayHello.GetOutputType) sayHello.GetName] ∧
    lit "(ctx context.Context, args *HelloRequest, reply *HelloReply) (err error)" <:+:
      serverStubText (upperFirstLatter sayHello.GetName) (upperFirstLatter greeter.GetName)
        (resolved helloTable sayHello.GetInputType)
        (resolved helloTable sayHello.GetOutputType) ∧
    lit "(ctx context.Context, args *HelloRequest)(reply *HelloReply, err error)" <:+:
      clientStubText (upperFirstLatter sayHello.GetName) (upperFirstLatter greeter.GetName)
        (resolved helloTable sayHello.GetInputType)
        (resolved helloTable sayHello.GetOutputType) sayHello.GetName ∧
    lit "(ctx context.Context, args *HelloRequest)(reply *HelloReply, err error)" <:+:
      oneClientStubText (upperFirstLatter sayHello.GetName) (upperFirstLatter greeter.GetName)
        (resolved helloTable sayHello.GetInputType)
        (resolved helloTable sayHello.GetOutputType) sayHello.GetName) :=
  ⟨⟨rfl, rfl, rfl, by decide⟩,
    stubs_share_type_names helloTable helloGen busyGen (busyGen.extend [lit "x"] [lit "y"])
      greeter sayHello rfl rfl rfl (by decide)⟩

theorem provenance_mem_serviceBlock (tbl : GoString → Option Object) (file : FileDescriptor)
    (s : ServiceDescriptorProto) : provenance file ∈ serviceBlock tbl file s := by
  simp [serviceBlock, serverBoilerplate, provenance]

theorem length_le_count_provenance (tbl : GoString → Option Object) (file : FileDescriptor) :
    ∀ ss : List ServiceDescriptorProto,
      ss.length ≤ (ss.flatMap (serviceBlock tbl file)).count (provenance file)
  | [] => by simp
  | s :: rest => by
    have h1 : 1 ≤ (serviceBlock tbl file s).count (provenance file) :=
      List.count_pos_iff.mpr (provenance_mem_serviceBlock tbl file s)
    have h2 := length_le_count_provenance tbl file rest
    simp only [List.flatMap_cons, List.count_append, List.length_cons]
    omega

/-- C12, as stated, fails: for the file declaring the two services `Greeter` and
`Farewell` the emitted fragments hold the provenance comment twice. -/
theorem provenance_twice :
    twoFile.Service.length = 2 ∧ (Generate helloGen twoFile).failed = false ∧
      (emitted helloGen twoFile).count (lit "// Gernerated from " ++ twoFile.GetName) = 2 := by
  decide

/-- C12, amended: when every type reference of the file resolves, the emitted fragments
hold one provenance comment per declared service: the block of every service starts with
the generated-by comment followed by `// Gernerated from <file name>`, so the comment
occurs at least as many times as the file declares services. -/
theorem provenance_per_service (g : Generator) (file : FileDescriptor)
    (h : ∀ s ∈ file.Service, ∀ m ∈ s.Method, resolves g.typeNameToObject m = true) :
    (Generate g file).failed = false ∧
      emitted g file = file.Service.flatMap (serviceBlock g.typeNameToObject file) ∧
      (∀ s : ServiceDescriptorProto,
        (serviceBlock g.typeNameToObject file s).take 2 =
          [lit "// This following code was generated by rpcx",
            lit "// Gernerated from " ++ file.GetName]) ∧
      file.Service.length ≤ (emitted g file).count (lit "// Gernerated from " ++ file.GetName) := by
  refine ⟨(Generate_ok g file h).1, emitted_ok g file h, fun s => ?_, ?_⟩
  · simp [serviceBlock, serverBoilerplate]
  · rw [emitted_ok g file h]
    exact length_le_count_provenance g.typeNameToObject file file.Service

/-- Instance of the amended C12: the file with two services. -/
theorem provenance_per_service_witness :
    (∀ s ∈ twoFile.Service, ∀ m ∈ s.Method, resolves helloGen.typeNameToObject m = true) ∧
    ((Generate helloGen twoFile).failed = false ∧
      emitted helloGen twoFile =
        twoFile.Service.flatMap (serviceBlock helloGen.typeNameToObject twoFile) ∧
      (∀ s : ServiceDescriptorProto,
        (serviceBlock helloGen.typeNameToObject twoFile s).take 2 =
          [lit "// This following code was generated by rpcx",
            lit "// Gernerated from " ++ twoFile.GetName]) ∧
      twoFile.Service.length ≤
        (emitted helloGen twoFile).count (lit "// Gernerated from " ++ twoFile.GetName)) :=
  ⟨by decide, provenance_per_service helloGen twoFile (by decide)⟩

/-- C13: when the methods of a service resolve, `generateService` prints the block of the
service, and every fragment of the block uses the one exported name
`N = upperFirstLatter(service.GetName())`: the boilerplates declare `NImpl`, `NClient` and
`NOneClient`, the stubs of every method have the receivers `*NImpl`, `*NClient` and
`*NOneClient`, and the name registered with `RegisterName` and the service path given to
`NewXClient` are both `N`. -/
theorem service_names_agree (g : Generator) (file : FileDescriptor)
    (s : ServiceDescriptorProto) (i : Nat)
    (h : ∀ m ∈ s.Method, resolves g.typeNameToObject m = true) :
    (generateService g file s i).failed = false ∧
    (generateService g file s i).state.out =
      g.out ++ (serverBoilerplate file s ++ s.Method.map (serverStub g.typeNameToObject s) ++
        (clientBoilerplate s ++ s.Method.map (clientStub g.typeNameToObject s)) ++
        (oneClientBoilerplate s ++ s.Method.map (oneClientStub g.typeNameToObject s))) ∧
    Declares (serverBoilerplate file s)
      (lit "type " ++ upperFirstLatter s.GetName ++ lit "Impl struct \x7b\x7d") ∧
    Declares (serverBoilerplate file s)
      (lit "s.RegisterName(\"" ++ upperFirstLatter s.GetName ++ lit "\", new(" ++
        upperFirstLatter s.GetName ++ lit "Impl), \"\")") ∧
    Declares (clientBoilerplate s)
      (lit "type " ++ upperFirstLatter s.GetName ++ lit "Client struct") ∧
    Declares (clientBoilerplate s)
      (lit "client.NewXClient(\"" ++ upperFirstLatter s.GetName ++
        lit "\", client.Failtry, client.RoundRobin, d, opt)") ∧
    Declares (oneClientBoilerplate s)
      (lit "type " ++ upperFirstLatter s.GetName ++ lit "OneClient struct") ∧
    (∀ m ∈ s.Method,
      lit "func (s *" ++ upperFirstLatter s.GetName ++ lit "Impl) " <:+:
        serverStub g.typeNameToObject s m ∧
      lit "func (c *" ++ upperFirstLatter s.GetName ++ lit "Client) " <:+:
        clientStub g.typeNameToObject s m ∧
      lit "func (c *" ++ upperFirstLatter s.GetName ++ lit "OneClient) " <:+:
        oneClientStub g.typeNameToObject s m) := by
  refine ⟨?_, ?_, ?_, ?_, ?_, ?_, ?_, ?_⟩
  · rw [generateService_ok g file s i h]; rfl
  · rw [generateService_ok g file s i h]; rfl
  · exact ⟨_, by simp [serverBoilerplate], serverSkeletonText_type _⟩
  · exact ⟨_, by simp [serverBoilerplate], serverSkeletonText_registerName _⟩
  · exact ⟨_, by simp [clientBoilerplate], clientWrapperText_type _⟩
  · exact ⟨_, by simp [clientBoilerplate], clientWrapperText_servicePath _⟩
  · exact ⟨_, by simp [oneClientBoilerplate], oneClientWrapperText_type _⟩
  · intro m _
    exact ⟨serverStubText_receiver _ _ _ _, clientStubText_receiver _ _ _ _ _,
      oneClientStubText_receiver _ _ _ _ _⟩

/-- Instance of C13: the service declared as `greeter` with the method `sayHello`. -/
theorem service_names_agree_witness :
    (∀ m ∈ lowerService.Method,
      resolves helloGen.typeNameToObject m = true) ∧
    ((generateService helloGen lowerFile lowerService 0).failed = false ∧
    (generateService helloGen lowerFile lowerService 0).state.out =
      helloGen.out ++ (serverBoilerplate lowerFile lowerService ++
        lowerService.Method.map
          (serverStub helloGen.typeNameToObject lowerService) ++
        (clientBoilerplate lowerService ++
          lowerService.Method.map
            (clientStub helloGen.typeNameToObject lowerService)) ++
        (oneClientBoilerplate lowerService ++
          lowerService.Method.map
            (oneClientStub helloGen.typeNameToObject lowerService))) ∧
    Declares (serverBoilerplate lowerFile lowerService)
      (lit "type GreeterImpl struct \x7b\x7d") ∧
    Declares (serverBoilerplate lowerFile lowerService)
      (lit "s.RegisterName(\"Greeter\", new(GreeterImpl), \"\")") ∧
    Declares (clientBoilerplate lowerService)
      (lit "type GreeterClient struct") ∧
    Declares (clientBoilerplate lowerService)
      (lit "client.NewXClient(\"Greeter\", client.Failtry, client.RoundRobin, d, opt)") ∧
    Declares (oneClientBoilerplate lowerService)
      (lit "type GreeterOneClient struct") ∧
    (∀ m ∈ lowerService.Method,
      lit "func (s *GreeterImpl) " <:+:
        serverStub helloGen.typeNameToObject lowerService m ∧
      lit "func (c *GreeterClient) " <:+:
        clientStub helloGen.typeNameToObject lowerService m ∧
      lit "func (c *GreeterOneClient) " <:+:
        oneClientStub helloGen.typeNameToObject lowerService m)) :=
  ⟨by decide,
    service_names_agree helloGen lowerFile lowerService 0 (by decide)⟩

theorem generateService_failed_iff (g : Generator) (file : FileDescriptor)
    (s : ServiceDescriptorProto) (i : Nat) :
    (generateService g file s i).failed = true ↔
      ∃ y ∈ s.Method, resolves g.typeNameToObject y = false := by
  constructor
  · intro hf
    by_contra hc
    have hall : ∀ y ∈ s.Method, resolves g.typeNameToObject y = true := by
      intro y hy
      cases hr : resolves g.typeNameToObject y with
      | true => rfl
      | false => exact absurd ⟨y, hy, hr⟩ hc
    rw [generateService_ok g file s i hall] at hf
    cases hf
  · intro h
    obtain ⟨ref, frags, used, he, -, -⟩ := generateService_fail g file s i h
    rw [he]
    rfl

/-- C14, as stated, fails: the service without a name whose method `SayLost` has an input
type without object makes `generateService` fail, and neither `type Client struct` nor
`type OneClient struct` is printed. -/
theorem unnamed_service_can_fail :
    unnamedLost.GetName = [] ∧
      (generateService helloGen greeterFile unnamedLost 0).failed = true ∧
      ¬ Declares (generateService helloGen greeterFile unnamedLost 0).state.out
        (lit "type Client struct") ∧
      ¬ Declares (generateService helloGen greeterFile unnamedLost 0).state.out
        (lit "type OneClient struct") := by
  refine ⟨rfl, by decide, ?_, ?_⟩
  · intro h
    exact absurd ((declaresB_iff _ _).mpr h) (by decide)
  · intro h
    exact absurd ((declaresB_iff _ _).mpr h) (by decide)

/-- C14, amended: an empty name never makes generation fail by itself: for any service,
`generateService` fails exactly when one of its methods has a type reference without
object. For a service with the empty name whose methods resolve, `generateService`
completes and the exported prefix is empty: the block declares `type Impl struct {}`,
`func ServeFor(addr string) error`, `type Client struct` and `type OneClient struct`.
For a method with the empty name whose references resolve, in any service, each of the
three stub generators prints a stub that declares a method with no identifier between
the receiver and the parameter list. -/
theorem empty_names_degrade (g : Generator) (file : FileDescriptor)
    (s : ServiceDescriptorProto) (i : Nat) (t : ServiceDescriptorProto)
    (m : MethodDescriptorProto) (hname : s.GetName = [])
    (h : ∀ y ∈ s.Method, resolves g.typeNameToObject y = true)
    (hmn : m.GetName = []) (hmr : resolves g.typeNameToObject m = true) :
    (∀ (x : ServiceDescriptorProto) (j : Nat),
      (generateService g file x j).failed = true ↔
        ∃ y ∈ x.Method, resolves g.typeNameToObject y = false) ∧
    (generateService g file s i).failed = false ∧
    (generateService g file s i).state.out =
      g.out ++ serviceBlock g.typeNameToObject file s ∧
    upperFirstLatter s.GetName = [] ∧
    Declares (serviceBlock g.typeNameToObject file s) (lit "type Impl struct \x7b\x7d") ∧
    Declares (serviceBlock g.typeNameToObject file s)
      (lit "func ServeFor(addr string) error") ∧
    Declares (serviceBlock g.typeNameToObject file s) (lit "type Client struct") ∧
    Declares (serviceBlock g.typeNameToObject file s) (lit "type OneClient struct") ∧
    upperFirstLatter m.GetName = [] ∧
    (generateServerCode g t m).failed = false ∧
    (generateClientCode g t m).failed = false ∧
    (generateOneClientCode g t m).failed = false ∧
    (generateServerCode g t m).state.out = g.out ++ [serverStub g.typeNameToObject t m] ∧
    (generateClientCode g t m).state.out = g.out ++ [clientStub g.typeNameToObject t m] ∧
    (generateOneClientCode g t m).state.out =
      g.out ++ [oneClientStub g.typeNameToObject t m] ∧
    lit "func (s *" ++ upperFirstLatter t.GetName ++
        lit "Impl) (ctx context.Context, args *" ++
        resolved g.typeNameToObject m.GetInputType ++ lit ", reply *" ++
        resolved g.typeNameToObject m.GetOutputType ++ lit ") (err error)" <:+:
      serverStub g.typeNameToObject t m ∧
    lit "func (c *" ++ upperFirstLatter t.GetName ++
        lit "Client) (ctx context.Context, args *" ++
        resolved g.typeNameToObject m.GetInputType ++ lit ")(reply *" ++
        resolved g.typeNameToObject m.GetOutputType ++ lit ", err error)" <:+:
      clientStub g.typeNameToObject t m ∧
    lit "func (c *" ++ upperFirstLatter t.GetName ++
        lit "OneClient) (ctx context.Context, args *" ++
        resolved g.typeNameToObject m.GetInputType ++ lit ")(reply *" ++
        resolved g.typeNameToObject m.GetOutputType ++ lit ", err error)" <:+:
      oneClientStub g.typeNameToObject t m := by
  have hN : upperFirstLatter s.GetName = [] := by rw [hname]; rfl
  have hM : upperFirstLatter m.GetName = [] := by rw [hmn]; rfl
  have hskel : serverSkeletonText [] ∈ serviceBlock g.typeNameToObject file s := by
    simp [serviceBlock, serverBoilerplate, hN]
  have hcw : clientWrapperText [] ∈ serviceBlock g.typeNameToObject file s := by
    simp [serviceBlock, clientBoilerplate, hN]
  have how : oneClientWrapperText [] ∈ serviceBlock g.typeNameToObject file s := by
    simp [serviceBlock, oneClientBoilerplate, hN]
  have e1 : lit "type Impl struct \x7b\x7d" = lit "type " ++ [] ++ lit "Impl struct \x7b\x7d" := by
    decide
  have e2 : lit "func ServeFor(addr string) error" =
      lit "func ServeFor" ++ [] ++ lit "(addr string) error" := by decide
  have e3 : lit "type Client struct" = lit "type " ++ [] ++ lit "Client struct" := by decide
  have e4 : lit "type OneClient struct" = lit "type " ++ [] ++ lit "OneClient struct" := by
    decide
  have e5 : lit "Impl) (ctx context.Context, args *" =
      lit "Impl) " ++ lit "(ctx context.Context, args *" := by decide
  have e6 : lit "Client) (ctx context.Context, args *" =
      lit "Client) " ++ lit "(ctx context.Context, args *" := by decide
  have e7 : lit "OneClient) (ctx context.Context, args *" =
      lit "OneClient) " ++ lit "(ctx context.Context, args *" := by decide
  have k1 := serverStubText_method [] (upperFirstLatter t.GetName)
    (resolved g.typeNameToObject m.GetInputType) (resolved g.typeNameToObject m.GetOutputType)
  have k2 := clientStubText_method [] (upperFirstLatter t.GetName)
    (resolved g.typeNameToObject m.GetInputType) (resolved g.typeNameToObject m.GetOutputType)
    m.GetName
  have k3 := oneClientStubText_method [] (upperFirstLatter t.GetName)
    (resolved g.typeNameToObject m.GetInputType) (resolved g.typeNameToObject m.GetOutputType)
    m.GetName
  refine ⟨fun x j => generateService_failed_iff g file x j, ?_, ?_, hN, ⟨_, hskel, ?_⟩,
    ⟨_, hskel, ?_⟩, ⟨_, hcw, ?_⟩, ⟨_, how, ?_⟩, hM, ?_, ?_, ?_, ?_, ?_, ?_, ?_, ?_, ?_⟩
  · rw [generateService_ok g file s i h]; rfl
  · rw [generateService_ok g file s i h]; rfl
  · rw [e1]; exact serverSkeletonText_type []
  · rw [e2]; exact serverSkeletonText_serve []
  · rw [e3]; exact clientWrapperText_type []
  · rw [e4]; exact oneClientWrapperText_type []
  · rw [generateServerCode_eq, stubStep_ok _ _ _ hmr]; rfl
  · rw [generateClientCode_eq, stubStep_ok _ _ _ hmr]; rfl
  · rw [generateOneClientCode_eq, stubStep_ok _ _ _ hmr]; rfl
  · rw [generateServerCode_eq, stubStep_ok _ _ _ hmr]; rfl
  · rw [generateClientCode_eq, stubStep_ok _ _ _ hmr]; rfl
  · rw [generateOneClientCode_eq, stubStep_ok _ _ _ hmr]; rfl
  · rw [serverStub, hM, e5]
    simpa only [List.append_assoc, List.nil_append] using k1
  · rw [clientStub, hM, e6]
    simpa only [List.append_assoc, List.nil_append] using k2
  · rw [oneClientStub, hM, e7]
    simpa only [List.append_assoc, List.nil_append] using k3

/-- Instance of the amended C14: the service without a name declaring a method without a
name, and the stubs of that method inside the service `Greeter`. -/
theorem empty_names_degrade_witness :
    (unnamedService.GetName = [] ∧
      (∀ y ∈ unnamedService.Method, resolves helloGen.typeNameToObject y = true) ∧
      unnamedMethod.GetName = [] ∧ resolves helloGen.typeNameToObject unnamedMethod = true) ∧
    ((∀ (x : ServiceDescriptorProto) (j : Nat),
      (generateService helloGen greeterFile x j).failed = true ↔
        ∃ y ∈ x.Method, resolves helloGen.typeNameToObject y = false) ∧
    (generateService helloGen greeterFile unnamedService 0).failed = false ∧
    (generateService helloGen greeterFile unnamedService 0).state.out =
      helloGen.out ++ serviceBlock helloGen.typeNameToObject greeterFile unnamedService ∧
    upperFirstLatter unnamedService.GetName = [] ∧
    Declares (serviceBlock helloGen.typeNameToObject greeterFile unnamedService)
      (lit "type Impl struct \x7b\x7d") ∧
    Declares (serviceBlock helloGen.typeNameToObject greeterFile unnamedService)
      (lit "func ServeFor(addr string) error") ∧
    Declares (serviceBlock helloGen.typeNameToObject greeterFile unnamedService)
      (lit "type Client struct") ∧
    Declares (serviceBlock helloGen.typeNameToObject greeterFile unnamedService)
      (lit "type OneClient struct") ∧
    upperFirstLatter unnamedMethod.GetName = [] ∧
    (generateServerCode helloGen greeter unnamedMethod).failed = false ∧
    (generateClientCode helloGen greeter unnamedMethod).failed = false ∧
    (generateOneClientCode helloGen greeter unnamedMethod).failed = false ∧
    (generateServerCode helloGen greeter unnamedMethod).state.out =
      helloGen.out ++ [serverStub helloGen.typeNameToObject greeter unnamedMethod] ∧
    (generateClientCode helloGen greeter unnamedMethod).state.out =
      helloGen.out ++ [clientStub helloGen.typeNameToObject greeter unnamedMethod] ∧
    (generateOneClientCode helloGen greeter unnamedMethod).state.out =
      helloGen.out ++ [oneClientStub helloGen.typeNameToObject greeter unnamedMethod] ∧
    lit "func (s *GreeterImpl) (ctx context.Context, args *HelloRequest, reply *HelloReply) (err error)" <:+:
      serverStub helloGen.typeNameToObject greeter unnamedMethod ∧
    lit "func (c *GreeterClient) (ctx context.Context, args *HelloRequest)(reply *HelloReply, err error)" <:+:
      clientStub helloGen.typeNameToObject greeter unnamedMethod ∧
    lit "func (c *GreeterOneClient) (ctx context.Context, args *HelloRequest)(reply *HelloReply, err error)" <:+:
      oneClientStub helloGen.typeNameToObject greeter unnamedMethod) :=
  ⟨⟨rfl, by decide, rfl, by decide⟩,
    empty_names_degrade helloGen greeterFile unnamedService 0 greeter unnamedMethod rfl
      (by decide) rfl (by decide)⟩

/-! ## Generation does not read the buffers -/

theorem shift_P (g : Generator) (o i u : List GoString) (x : GoString) :
    (g.shift o i u).P x = (g.P x).shift o i u := by
  simp [Generator.shift, Generator.P, List.append_assoc]

theorem shift_AddImport (g : Generator) (o i u : List GoString) (x : GoString) :
    (g.shift o i u).AddImport x = (g.AddImport x).shift o i u := by
  simp [Generator.shift, Generator.AddImport, List.append_assoc]

theorem typeName_shift (g : Generator) (o i u : List GoString) (ref : GoString) :
    typeName (g.shift o i u) ref = (typeName g ref).shift o i u := by
  cases h : g.typeNameToObject ref with
  | none =>
    have h2 : (g.shift o i u).typeNameToObject ref = none := h
    rw [typeName_of_none h, typeName_of_none h2]
    simp [Outcome.shift, Generator.shift, Generator.extend, List.append_assoc]
  | some a =>
    have h2 : (g.shift o i u).typeNameToObject ref = some a := h
    rw [typeName_of_some h, typeName_of_some h2]
    simp [Outcome.shift, Generator.shift, Generator.extend, List.append_assoc]

theorem bind_shift {α β : Type} (r : Outcome α) (k : α → Generator → Outcome β)
    (o i u : List GoString)
    (hk : ∀ a g, k a (g.shift o i u) = (k a g).shift o i u) :
    (r.shift o i u).bind k = (r.bind k).shift o i u := by
  cases r with
  | ok a g => simp [Outcome.shift, Outcome.bind, hk]
  | fail e g => simp [Outcome.shift, Outcome.bind]

theorem stubStep_shift (text : GoString → GoString → GoString) (g : Generator)
    (m : MethodDescriptorProto) (o i u : List GoString) :
    stubStep text (g.shift o i u) m = (stubStep text g m).shift o i u := by
  unfold stubStep
  rw [typeName_shift]
  apply bind_shift
  intro a g1
  rw [typeName_shift]
  apply bind_shift
  intro b g2
  simp [Outcome.shift, shift_P]

theorem forEachMethod_shift
    (body : Generator → ServiceDescriptorProto → MethodDescriptorProto → Outcome Unit)
    (s : ServiceDescriptorProto) (o i u : List GoString)
    (hbody : ∀ g m, body (g.shift o i u) s m = (body g s m).shift o i u) :
    ∀ (ms : List MethodDescriptorProto) (g : Generator),
      forEachMethod body s (g.shift o i u) ms = (forEachMethod body s g ms).shift o i u
  | [], g => by simp [forEachMethod, Outcome.shift]
  | m :: rest, g => by
    rw [forEachMethod, forEachMethod, hbody]
    apply bind_shift
    intro _ g1
    exact forEachMethod_shift body s o i u hbody rest g1

theorem generateService_shift (g : Generator) (file : FileDescriptor)
    (s : ServiceDescriptorProto) (n : Nat) (o i u : List GoString) :
    generateService (g.shift o i u) file s n = (generateService g file s n).shift o i u := by
  unfold generateService
  simp only [shift_P]
  rw [forEachMethod_shift generateServerCode s o i u
    (fun g m => by rw [generateServerCode_eq, generateServerCode_eq, stubStep_shift])]
  apply bind_shift
  intro _ g1
  simp only [shift_P]
  rw [forEachMethod_shift generateClientCode s o i u
    (fun g m => by rw [generateClientCode_eq, generateClientCode_eq, stubStep_shift])]
  apply bind_shift
  intro _ g2
  simp only [shift_P]
  exact forEachMethod_shift generateOneClientCode s o i u
    (fun g m => by rw [generateOneClientCode_eq, generateOneClientCode_eq, stubStep_shift]) _ _

theorem forEachService_shift (file : FileDescriptor) (o i u : List GoString) :
    ∀ (ss : List ServiceDescriptorProto) (g : Generator) (n : Nat),
      forEachService file (g.shift o i u) ss n = (forEachService file g ss n).shift o i u
  | [], g, n => by simp [forEachService, Outcome.shift]
  | s :: rest, g, n => by
    rw [forEachService, forEachService, generateService_shift]
    apply bind_shift
    intro _ g1
    exact forEachService_shift file o i u rest g1 (n + 1)

theorem Generate_shift (g : Generator) (file : FileDescriptor) (o i u : List GoString) :
    Generate (g.shift o i u) file = (Generate g file).shift o i u := by
  unfold Generate
  by_cases h : file.Service.length = 0
  · simp [h, Outcome.shift]
  · simp only [h, if_false, shift_AddImport]
    exact forEachService_shift file o i u _ _ 0

theorem shift_fresh (g : Generator) : g.fresh.shift g.out g.imports g.usedTypes = g := by
  simp [Generator.fresh, Generator.shift]

theorem emitted_eq_fresh (g : Generator) (file : FileDescriptor) :
    emitted g file = (Generate g.fresh file).state.out ∧
      (Generate g file).failed = (Generate g.fresh file).failed := by
  have h := Generate_shift g.fresh file g.out g.imports g.usedTypes
  rw [shift_fresh] at h
  unfold emitted
  rw [h]
  cases Generate g.fresh file with
  | ok a g1 => simp [Outcome.shift, Outcome.state, Outcome.failed, Generator.shift]
  | fail e g1 => simp [Outcome.shift, Outcome.state, Outcome.failed, Generator.shift]

theorem Generate_state_table (g : Generator) (file : FileDescriptor) :
    (Generate g file).state.typeNameToObject = g.typeNameToObject := by
  by_cases hs : file.Service = []
  · simp [Generate, hs, Outcome.state]
  · rw [Generate_of_services g file hs]
    rcases resolves_all_or_some g.typeNameToObject file.Service with hall | hsome
    · rw [forEachService_ok file file.Service _ 0 (by simpa using hall)]
      rfl
    · obtain ⟨ref, frags, used, he, -, -⟩ :=
        forEachService_fail file file.Service
          ((((g.AddImport rpcxServerPkgPath).AddImport rpcxClientPkgPath).AddImport
            rpcxProtocolPkgPath).AddImport (lit "context")) 0 (by simpa using hsome)
      rw [he]
      rfl

/-- C15: two runs of `Generate` on the same file from generators over the same symbol
table add the same fragments and end the same way, whatever output, imports and recorded
types the generators held before; in particular a second run from the state the first one
left adds the same fragments as the first. -/
theorem Generate_deterministic (g1 g2 : Generator) (file : FileDescriptor)
    (h : g1.typeNameToObject = g2.typeNameToObject) :
    emitted g1 file = emitted g2 file ∧
      (Generate g1 file).failed = (Generate g2 file).failed ∧
      emitted (Generate g1 file).state file = emitted g1 file := by
  have hf : g1.fresh = g2.fresh := by simp [Generator.fresh, h]
  have hf2 : (Generate g1 file).state.fresh = g1.fresh := by
    simp [Generator.fresh, Generate_state_table]
  refine ⟨?_, ?_, ?_⟩
  · rw [(emitted_eq_fresh g1 file).1, (emitted_eq_fresh g2 file).1, hf]
  · rw [(emitted_eq_fresh g1 file).2, (emitted_eq_fresh g2 file).2, hf]
  · rw [(emitted_eq_fresh _ file).1, (emitted_eq_fresh g1 file).1, hf2]

/-- Instance of C15: the greeter file from an empty generator and from one that already
holds output, an import and a recorded type. -/
theorem Generate_deterministic_witness :
    helloGen.typeNameToObject = busyGen.typeNameToObject ∧
    (emitted helloGen greeterFile = emitted busyGen greeterFile ∧
      (Generate helloGen greeterFile).failed = (Generate busyGen greeterFile).failed ∧
      emitted (Generate helloGen greeterFile).state greeterFile =
        emitted helloGen greeterFile) :=
  ⟨rfl, Generate_deterministic helloGen busyGen greeterFile rfl⟩

theorem Generate_failed_of_unresolved (g : Generator) (file : FileDescriptor)
    (h : ∃ s ∈ file.Service, ∃ m ∈ s.Method, resolves g.typeNameToObject m = false) :
    (Generate g file).failed = true := by
  have hne : file.Service ≠ [] := by
    intro h0
    rw [h0] at h
    simp at h
  rw [Generate_of_services g file hne]
  obtain ⟨ref, frags, used, he, -, -⟩ :=
    forEachService_fail file file.Service
      ((((g.AddImport rpcxServerPkgPath).AddImport rpcxClientPkgPath).AddImport
        rpcxProtocolPkgPath).AddImport (lit "context")) 0 (by simpa using h)
  rw [he]
  rfl

theorem resolves_of_not_failed (g : Generator) (file : FileDescriptor)
    (h : (Generate g file).failed = false) :
    ∀ s ∈ file.Service, ∀ m ∈ s.Method, resolves g.typeNameToObject m = true := by
  rcases resolves_all_or_some g.typeNameToObject file.Service with hall | hsome
  · exact hall
  · rw [Generate_failed_of_unresolved g file hsome] at h
    cases h

theorem mem_serviceRefs {s : ServiceDescriptorProto} {r : GoString} :
    r ∈ serviceRefs s ↔ ∃ m ∈ s.Method, r = m.GetInputType ∨ r = m.GetOutputType := by
  simp [serviceRefs, typeRefs, List.mem_flatMap]

/-- C16: `typeName(str)` records `str` with `RecordTypeUse` before the lookup (a failing
lookup leaves it recorded) and returns the printable name of the object named `str`.
After a run of `Generate` that did not fail, the input and the output type reference of
every method of every service are among the recorded types, and every reference the run
recorded is the input or output type reference of some method of the file. -/
theorem typeName_records_use (g : Generator) (file : FileDescriptor)
    (h : (Generate g file).failed = false) :
    (∀ (str : GoString) (o : Object), g.typeNameToObject str = some o →
      typeName g str = .ok (g.TypeName o) (g.RecordTypeUse str)) ∧
    (∀ str : GoString, g.typeNameToObject str = none →
      typeName g str = .fail str (g.RecordTypeUse str)) ∧
    (∀ str : GoString, str ∈ (typeName g str).state.usedTypes) ∧
    (∀ s ∈ file.Service, ∀ m ∈ s.Method,
      m.GetInputType ∈ (Generate g file).state.usedTypes ∧
      m.GetOutputType ∈ (Generate g file).state.usedTypes) ∧
    (∃ added : List GoString,
      (Generate g file).state.usedTypes = g.usedTypes ++ added ∧
      ∀ r ∈ added, ∃ s ∈ file.Service, ∃ m ∈ s.Method,
        r = m.GetInputType ∨ r = m.GetOutputType) := by
  have hall := resolves_of_not_failed g file h
  have hused := (Generate_ok g file hall).2.2
  refine ⟨?_, ?_, ?_, ?_, ?_⟩
  · intro str o ho
    rw [typeName_of_some ho, RecordTypeUse_eq_extend]
    rfl
  · intro str ho
    rw [typeName_of_none ho, RecordTypeUse_eq_extend]
  · intro str
    cases ho : g.typeNameToObject str with
    | none => rw [typeName_of_none ho]; simp [Outcome.state]
    | some o => rw [typeName_of_some ho]; simp [Outcome.state]
  · intro s hs m hm
    rw [hused]
    have hin : ∀ r, (r = m.GetInputType ∨ r = m.GetOutputType) →
        r ∈ g.usedTypes ++ file.Service.flatMap serviceRefs := by
      intro r hr
      exact List.mem_append_right _
        (List.mem_flatMap.mpr ⟨s, hs, mem_serviceRefs.mpr ⟨m, hm, hr⟩⟩)
    exact ⟨hin _ (Or.inl rfl), hin _ (Or.inr rfl)⟩
  · refine ⟨file.Service.flatMap serviceRefs, hused, ?_⟩
    intro r hr
    obtain ⟨s, hs, hrs⟩ := List.mem_flatMap.mp hr
    obtain ⟨m, hm, hrm⟩ := mem_serviceRefs.mp hrs
    exact ⟨s, hs, m, hm, hrm⟩

/-- Instance of C16: the greeter file, from a generator that already holds a recorded
type. -/
theorem typeName_records_use_witness :
    (Generate busyGen greeterFile).failed = false ∧
    ((∀ (str : GoString) (o : Object), busyGen.typeNameToObject str = some o →
      typeName busyGen str = .ok (busyGen.TypeName o) (busyGen.RecordTypeUse str)) ∧
    (∀ str : GoString, busyGen.typeNameToObject str = none →
      typeName busyGen str = .fail str (busyGen.RecordTypeUse str)) ∧
    (∀ str : GoString, str ∈ (typeName busyGen str).state.usedTypes) ∧
    (∀ s ∈ greeterFile.Service, ∀ m ∈ s.Method,
      m.GetInputType ∈ (Generate busyGen greeterFile).state.usedTypes ∧
      m.GetOutputType ∈ (Generate busyGen greeterFile).state.usedTypes) ∧
    (∃ added : List GoString,
      (Generate busyGen greeterFile).state.usedTypes = busyGen.usedTypes ++ added ∧
      ∀ r ∈ added, ∃ s ∈ greeterFile.Service, ∃ m ∈ s.Method,
        r = m.GetInputType ∨ r = m.GetOutputType)) :=
  ⟨by decide, typeName_records_use busyGen greeterFile (by decide)⟩

/-! ## The first byte -/

theorem unicodeToUpper_high (r : Nat) (h1 : 0x80 ≤ r) (h2 : r < 0x100) :
    0x80 ≤ unicodeToUpper r ∧ unicodeToUpper r < 0x800 := by
  unfold unicodeToUpper
  split_ifs <;> omega

theorem encodeRune_two (r : Nat) (h1 : 0x80 ≤ r) (h2 : r < 0x800) :
    encodeRune r = [byte (0xC0 + r / 64), byte (0x80 + r % 64)] := by
  have h3 : ¬ r < 0x80 := by omega
  simp [encodeRune, h3, h2]

theorem toUpperOfByte_ascii (b : Byte) (h : b.val < 0x80) :
    toUpperOfByte b = [if 0x61 ≤ b.val ∧ b.val ≤ 0x7A then byte (b.val - 32) else b] := by
  simp [toUpperOfByte, h]

theorem toUpperOfByte_high (b : Byte) (h : 0x80 ≤ b.val) :
    toUpperOfByte b = encodeRune (unicodeToUpper b.val) := by
  have h3 : ¬ b.val < 0x80 := by omega
  simp [toUpperOfByte, h3]

theorem upperFirstLatter_cons (b : Byte) (rest : GoString) :
    upperFirstLatter (b :: rest) = toUpperOfByte b ++ rest := by
  cases rest with
  | nil => simp [upperFirstLatter]
  | cons c cs => simp [upperFirstLatter]

/-- C17: for a string whose first byte `b` is below 0x80, `upperFirstLatter` keeps the
length, replaces the first byte by its ASCII upper case (`a`..`z` become `A`..`Z`, 32
lower; any other byte stays) and keeps the bytes after the first; so it is the identity
when such a first byte is outside `a`..`z`, and on a one-byte string the `len(s) == 1`
branch gives what the general branch `ToUpper(string(s[0])) + s[1:]` gives. -/
theorem upperFirstLatter_ascii (b : Byte) (rest : GoString) (h : b.val < 0x80) :
    (upperFirstLatter (b :: rest)).length = (b :: rest).length ∧
    upperFirstLatter (b :: rest) =
      (if 0x61 ≤ b.val ∧ b.val ≤ 0x7A then byte (b.val - 32) else b) :: rest ∧
    (0x61 ≤ b.val ∧ b.val ≤ 0x7A →
      0x41 ≤ (byte (b.val - 32)).val ∧ (byte (b.val - 32)).val ≤ 0x5A ∧
      (byte (b.val - 32)).val + 32 = b.val) ∧
    (¬ (0x61 ≤ b.val ∧ b.val ≤ 0x7A) → upperFirstLatter (b :: rest) = b :: rest) ∧
    upperFirstLatter [b] = toUpperOfByte b ++ List.drop 1 [b] := by
  have hu := upperFirstLatter_cons b rest
  rw [toUpperOfByte_ascii b h] at hu
  refine ⟨?_, hu, ?_, ?_, ?_⟩
  · rw [hu]; simp
  · intro hr
    simp only [byte]
    omega
  · intro hr
    rw [hu, if_neg hr]
    rfl
  · simp [upperFirstLatter]

/-- Instance of C17: the name `sayHello`. -/
theorem upperFirstLatter_ascii_witness :
    (byte 0x73).val < 0x80 ∧
    ((upperFirstLatter (byte 0x73 :: lit "ayHello")).length =
      (byte 0x73 :: lit "ayHello").length ∧
    upperFirstLatter (byte 0x73 :: lit "ayHello") =
      (if 0x61 ≤ (byte 0x73).val ∧ (byte 0x73).val ≤ 0x7A then byte ((byte 0x73).val - 32)
        else byte 0x73) :: lit "ayHello" ∧
    (0x61 ≤ (byte 0x73).val ∧ (byte 0x73).val ≤ 0x7A →
      0x41 ≤ (byte ((byte 0x73).val - 32)).val ∧ (byte ((byte 0x73).val - 32)).val ≤ 0x5A ∧
      (byte ((byte 0x73).val - 32)).val + 32 = (byte 0x73).val) ∧
    (¬ (0x61 ≤ (byte 0x73).val ∧ (byte 0x73).val ≤ 0x7A) →
      upperFirstLatter (byte 0x73 :: lit "ayHello") = byte 0x73 :: lit "ayHello") ∧
    upperFirstLatter [byte 0x73] = toUpperOfByte (byte 0x73) ++ List.drop 1 [byte 0x73]) :=
  ⟨by decide, upperFirstLatter_ascii (byte 0x73) (lit "ayHello") (by decide)⟩

theorem byte_val (b : Byte) : byte b.val = b := by
  apply Fin.ext
  simp only [byte]
  omega

theorem byte_congr {n k : Nat} (h : n % 256 = k % 256) : byte n = byte k := by
  apply Fin.ext
  simp only [byte]
  exact h

theorem unicodeToUpper_of_high (r : Nat) (h1 : 0x80 ≤ r) :
    unicodeToUpper r =
      (if r = 0xB5 then 0x39C
        else if r = 0xFF then 0x178
        else if (0xE0 ≤ r ∧ r ≤ 0xF6) ∨ (0xF8 ≤ r ∧ r ≤ 0xFE) then r - 32
        else r) := by
  unfold unicodeToUpper
  split_ifs <;> omega

theorem toUpperOfByte_high_bytes (b : Byte) (h : 0x80 ≤ b.val) :
    toUpperOfByte b =
      (if b.val = 0xB5 then [byte 0xCE, byte 0x9C]
        else if b.val = 0xFF then [byte 0xC5, byte 0xB8]
        else if (0xE0 ≤ b.val ∧ b.val ≤ 0xF6) ∨ (0xF8 ≤ b.val ∧ b.val ≤ 0xFE) then
          [byte 0xC3, byte (b.val - 0x60)]
        else if b.val < 0xC0 then [byte 0xC2, b]
        else [byte 0xC3, byte (b.val - 0x40)]) := by
  have hlt := b.isLt
  have hr := unicodeToUpper_high b.val h hlt
  rw [toUpperOfByte_high b h, encodeRune_two _ hr.1 hr.2, unicodeToUpper_of_high b.val h]
  split_ifs with c1 c2 c3 c4
  · rfl
  · rfl
  · have e1 : byte (0xC0 + (b.val - 32) / 64) = byte 0xC3 := byte_congr (by omega)
    have e2 : byte (0x80 + (b.val - 32) % 64) = byte (b.val - 0x60) :=
      byte_congr (by omega)
    rw [e1, e2]
  · have e1 : byte (0xC0 + b.val / 64) = byte 0xC2 := byte_congr (by omega)
    have e2 : byte (0x80 + b.val % 64) = byte b.val := byte_congr (by omega)
    rw [e1, e2, byte_val]
  · have e1 : byte (0xC0 + b.val / 64) = byte 0xC3 := byte_congr (by omega)
    have e2 : byte (0x80 + b.val % 64) = byte (b.val - 0x40) := byte_congr (by omega)
    rw [e1, e2]

/-- C18: for a string whose first byte `b` is 0x80 or more, `upperFirstLatter` returns
the two-byte UTF-8 encoding of the upper case of the rune U+00`b`, followed by the bytes
after the first. The upper case is U+039C for B5, U+0178 for FF, 32 lower for E0..F6 and
F8..FE, and the rune itself otherwise, so the two bytes are CE 9C, C5 B8, C3 (`b` - 0x60),
and otherwise C2 `b` below C0 and C3 (`b` - 0x40) from C0 on. The result is one byte
longer than the string and differs from it. -/
theorem upperFirstLatter_high_byte (b : Byte) (rest : GoString) (h : 0x80 ≤ b.val) :
    upperFirstLatter (b :: rest) = encodeRune (unicodeToUpper b.val) ++ rest ∧
    unicodeToUpper b.val =
      (if b.val = 0xB5 then 0x39C
        else if b.val = 0xFF then 0x178
        else if (0xE0 ≤ b.val ∧ b.val ≤ 0xF6) ∨ (0xF8 ≤ b.val ∧ b.val ≤ 0xFE) then
          b.val - 32
        else b.val) ∧
    upperFirstLatter (b :: rest) =
      (if b.val = 0xB5 then [byte 0xCE, byte 0x9C]
        else if b.val = 0xFF then [byte 0xC5, byte 0xB8]
        else if (0xE0 ≤ b.val ∧ b.val ≤ 0xF6) ∨ (0xF8 ≤ b.val ∧ b.val ≤ 0xFE) then
          [byte 0xC3, byte (b.val - 0x60)]
        else if b.val < 0xC0 then [byte 0xC2, b]
        else [byte 0xC3, byte (b.val - 0x40)]) ++ rest ∧
    encodeRune (unicodeToUpper b.val) =
      [byte (0xC0 + unicodeToUpper b.val / 64), byte (0x80 + unicodeToUpper b.val % 64)] ∧
    (upperFirstLatter (b :: rest)).length = (b :: rest).length + 1 ∧
    upperFirstLatter (b :: rest) ≠ b :: rest ∧
    rest <:+ upperFirstLatter (b :: rest) := by
  have hu := upperFirstLatter_cons b rest
  have hu2 := hu
  rw [toUpperOfByte_high b h] at hu
  rw [toUpperOfByte_high_bytes b h] at hu2
  have hr := unicodeToUpper_high b.val h b.isLt
  have he := encodeRune_two _ hr.1 hr.2
  have hl : (upperFirstLatter (b :: rest)).length = (b :: rest).length + 1 := by
    rw [hu, he]; simp
  refine ⟨hu, unicodeToUpper_of_high b.val h, hu2, he, hl, ?_, ?_⟩
  · intro heq
    rw [heq] at hl
    omega
  · rw [hu]
    exact List.suffix_append _ _

/-- Instance of C18: the first byte E9 becomes C3 89, the encoding of U+00C9. -/
theorem upperFirstLatter_high_byte_witness :
    0x80 ≤ (byte 0xE9).val ∧
    (upperFirstLatter (byte 0xE9 :: [byte 0x74]) =
      encodeRune (unicodeToUpper (byte 0xE9).val) ++ [byte 0x74] ∧
    unicodeToUpper (byte 0xE9).val = 0xC9 ∧
    upperFirstLatter (byte 0xE9 :: [byte 0x74]) = [byte 0xC3, byte 0x89] ++ [byte 0x74] ∧
    encodeRune (unicodeToUpper (byte 0xE9).val) =
      [byte (0xC0 + unicodeToUpper (byte 0xE9).val / 64),
        byte (0x80 + unicodeToUpper (byte 0xE9).val % 64)] ∧
    (upperFirstLatter (byte 0xE9 :: [byte 0x74])).length =
      (byte 0xE9 :: [byte 0x74]).length + 1 ∧
    upperFirstLatter (byte 0xE9 :: [byte 0x74]) ≠ byte 0xE9 :: [byte 0x74] ∧
    [byte 0x74] <:+ upperFirstLatter (byte 0xE9 :: [byte 0x74])) :=
  ⟨by decide, upperFirstLatter_high_byte (byte 0xE9) [byte 0x74] (by decide)⟩

end Rpcx
